import Mathlib

/-!
Shallow embedding of `src/index.js` (openpave-gcal: a Google Calendar CLI).

The program is dynamically-typed JavaScript, so the embedding is built on a
small model `Js` of JavaScript values (with `undefined`, `null`, booleans,
numbers, strings, arrays and objects), together with the JS primitives the
source uses: property access (`Js.get`), truthiness, `||` (`jsOr`),
string coercion (`Js.toStr`), `String.prototype.split` with a limit
(`jsSplit`), `parseInt` (`jsParseInt`), `padEnd` (`jsPadEnd`),
`encodeURIComponent`, and object-literal update / spread (`objSet`,
`objSpread`).

Host behaviour (the clock, `Date` locale rendering, the PAVE secure-token
capability `hasToken` / `authenticatedFetch`) is modelled by an explicit
environment `Env`. A program run is modelled as a trace of observable
events (`Ev`: console output, fetch calls, client construction) plus an
exit kind, so that claims about exit codes, emitted lines and issued
network calls can be stated and proved.

Numbers are modelled as integers plus an explicit `nan` value; the source
never performs fractional arithmetic (the only arithmetic is day counts,
epoch milliseconds and list lengths).
-/

set_option maxHeartbeats 1600000

/-! ## JavaScript value model -/

/-- A JavaScript runtime value, as used by `src/index.js`. -/
inductive Js where
  | undef
  | null
  | nan
  | bool (b : Bool)
  | num (n : Int)
  | str (s : String)
  | arr (xs : List Js)
  | obj (fs : List (String × Js))

/-- Property access `v?.k` (and `v.k` for the object-valued `v` the source
uses it on): field lookup on objects, `undefined` otherwise.  None of the
property names the source reads exists on string/number/boolean prototypes. -/
def Js.get : Js → String → Js
  | .obj fs, k => ((fs.find? (fun kv => kv.1 == k)).map (fun kv => kv.2)).getD .undef
  | _, _ => Js.undef

/-- JavaScript truthiness. -/
def Js.truthy : Js → Bool
  | .undef => false
  | .null => false
  | .nan => false
  | .bool b => b
  | .num n => n != 0
  | .str s => s != ""
  | .arr _ => true
  | .obj _ => true

/-- The JavaScript `a || b` operator (first truthy operand). -/
def jsOr (a b : Js) : Js := if a.truthy then a else b

mutual
/-- JavaScript `String(v)` coercion (used by template literals and
`encodeURIComponent`). -/
def Js.toStr : Js → String
  | .undef => "undefined"
  | .null => "null"
  | .nan => "NaN"
  | .bool true => "true"
  | .bool false => "false"
  | .num n => toString n
  | .str s => s
  | .arr xs => Js.listToStr xs
  | .obj _ => "[object Object]"

/-- Model of `Array.prototype.toString`: elements joined with `","`. -/
def Js.listToStr : List Js → String
  | [] => ""
  | [x] => x.toStr
  | x :: y :: xs => x.toStr ++ "," ++ Js.listToStr (y :: xs)
end

/-- The `.length` read `(event.attendees || []).length` performs: array or
string length, the `length` property on objects, `undefined` otherwise. -/
def jsLengthVal : Js → Js
  | .arr xs => .num xs.length
  | .str s => .num s.length
  | .obj fs => Js.get (.obj fs) "length"
  | _ => Js.undef

/-- Strict inequality `v !== 'lit'` against a string literal: false exactly
when `v` is that string. -/
def jsStrictNeStr (v : Js) (lit : String) : Bool :=
  match v with
  | .str s => s != lit
  | _ => true

/-! ## JavaScript string primitives used by the source -/

/-- Model of `String.prototype.split` with a one-character separator, on the
character list: every separator occurrence cuts, empty fields kept. -/
def splitChar (sep : Char) : List Char → List (List Char)
  | [] => [[]]
  | c :: cs =>
    let r := splitChar sep cs
    if c = sep then [] :: r
    else
      match r with
      | [] => [[c]]
      | h :: t => (c :: h) :: t

/-- Model of `s.split(sep)` for a one-character separator. -/
def jsSplit (s : String) (sep : Char) : List String :=
  (splitChar sep s.toList).map (fun cs => String.mk cs)

/-- Model of `s.split(sep, limit)`: JavaScript truncates the result to the first
`limit` fields (it does not re-join the remainder). -/
def jsSplitLimit (s : String) (sep : Char) (limit : Nat) : List String :=
  (jsSplit s sep).take limit

/-- Model of `s.slice(n)` for a non-negative index (character based). -/
def jsSlice (s : String) (n : Nat) : String := String.mk (s.toList.drop n)

/-- Model of `s.startsWith(p)`. -/
def jsStartsWith (s p : String) : Bool := p.toList.isPrefixOf s.toList

/-- Model of `s.includes(sub)`. -/
def jsIncludes (s sub : String) : Bool := decide (List.IsInfix sub.toList s.toList)

/-- Model of `s.padEnd(n)` (pad with spaces; the strings involved are BMP-only, so
JavaScript UTF-16 length agrees with character count). -/
def jsPadEnd (s : String) (n : Nat) : String :=
  s ++ String.mk (List.replicate (n - s.length) ' ')

/-- Accumulate the leading decimal digits of a character list (`none` when
no digit has been seen). -/
def digitsVal : List Char → Option Nat → Option Nat
  | [], acc => acc
  | c :: cs, acc =>
    if c.isDigit then digitsVal cs (some ((acc.getD 0) * 10 + (c.toNat - Char.toNat (Char.ofNat 48))))
    else acc

/-- Model of `parseInt(s)` in its decimal form (the only form the CLI receives):
skip leading whitespace, optional sign, then leading decimal digits;
`none` models `NaN`. -/
def jsParseInt (s : String) : Option Int :=
  let cs := s.toList.dropWhile (fun c => c = ' ' ∨ c = Char.ofNat 9 ∨ c = Char.ofNat 10)
  match cs with
  | c :: rest =>
    if c = Char.ofNat 45 then (digitsVal rest none).map (fun n => -(n : Int))
    else if c = Char.ofNat 43 then (digitsVal rest none).map (fun n => (n : Int))
    else (digitsVal (c :: rest) none).map (fun n => (n : Int))
  | [] => none

/-- A `parseInt` result as a JavaScript number (`NaN` for `none`). -/
def jsOfParseInt : Option Int → Js
  | some n => .num n
  | none => .nan

/-! ## `encodeURIComponent` -/

/-- Upper-case hex digit for a value below 16. -/
def hexDigit (n : Nat) : Char :=
  if n < 10 then Char.ofNat (48 + n) else Char.ofNat (65 + (n - 10))

/-- A percent-encoded byte, `%XX`. -/
def percentByte (b : Nat) : String :=
  String.mk [Char.ofNat 37, hexDigit (b / 16), hexDigit (b % 16)]

/-- UTF-8 bytes of a character (as natural numbers below 256). -/
def utf8Bytes (c : Char) : List Nat :=
  let n := c.toNat
  if n < 128 then [n]
  else if n < 2048 then [192 + n / 64, 128 + n % 64]
  else if n < 65536 then [224 + n / 4096, 128 + (n / 64) % 64, 128 + n % 64]
  else [240 + n / 262144, 128 + (n / 4096) % 64, 128 + (n / 64) % 64, 128 + n % 64]

/-- Characters `encodeURIComponent` leaves unescaped:
alphanumerics and `- _ . ! ~ * ' ( )`. -/
def uriUnreserved (c : Char) : Bool :=
  c.isAlpha || c.isDigit ||
    [Char.ofNat 45, Char.ofNat 95, Char.ofNat 46, Char.ofNat 33, Char.ofNat 126,
     Char.ofNat 42, Char.ofNat 39, Char.ofNat 40, Char.ofNat 41].contains c

/-- Model of `encodeURIComponent(s)`. -/
def encodeURIComponent (s : String) : String :=
  String.join (s.toList.map (fun c =>
    if uriUnreserved c then String.mk [c]
    else String.join ((utf8Bytes c).map percentByte)))

/-! ## JavaScript object-as-record helpers -/

/-- Model of `o[k] = v` on a JavaScript object: replaces the value of an existing
key in place (keys keep their original insertion position), appends a new
key at the end. -/
def objSet : List (String × Js) → String → Js → List (String × Js)
  | [], k, v => [(k, v)]
  | (k0, v0) :: t, k, v =>
    if k0 == k then (k, v) :: t else (k0, v0) :: objSet t k v

/-- Reading `o[k]` (`undefined` for a missing key). -/
def objGet (o : List (String × Js)) (k : String) : Js :=
  ((o.find? (fun kv => kv.1 == k)).map (fun kv => kv.2)).getD Js.undef

/-- Object spread `{ ...base-literal, ...extra }`: every key of `extra`
assigned onto `base` in order. -/
def objSpread (base extra : List (String × Js)) : List (String × Js) :=
  extra.foldl (fun acc kv => objSet acc kv.1 kv.2) base

/-! ## Argument parser (`parseArgs`, src/index.js lines 28-67) -/

/-- The `parsed` record `parseArgs` builds: a command, positionals in
encountered order, and an option object mapping keys to string values or
boolean `true`. -/
structure Parsed where
  command : Option String
  positional : List String
  options : List (String × Js)

/-- The loop body of `parseArgs`: one token at a time; the `i++`
value-consumption makes the loop consume one or two tokens per step, so the
recursion distinguishes a final token from one with a successor. -/
def parseArgsAux : List String → Parsed → Parsed
  | [], p => p
  | [arg], p =>
    if jsStartsWith arg "-" then
      if jsStartsWith arg "--" then
        let parts := jsSplitLimit (jsSlice arg 2) (Char.ofNat 61) 2
        let key := parts.headD ""
        match parts.drop 1 with
        | value :: _ => parseArgsAux [] { p with options := objSet p.options key (.str value) }
        | [] => parseArgsAux [] { p with options := objSet p.options key (.bool true) }
      else
        parseArgsAux [] { p with options := objSet p.options (jsSlice arg 1) (.bool true) }
    else
      if p.command.isNone then parseArgsAux [] { p with command := some arg }
      else parseArgsAux [] { p with positional := p.positional ++ [arg] }
  | arg :: next :: rest2, p =>
    if jsStartsWith arg "-" then
      if jsStartsWith arg "--" then
        let parts := jsSplitLimit (jsSlice arg 2) (Char.ofNat 61) 2
        let key := parts.headD ""
        match parts.drop 1 with
        | value :: _ =>
          parseArgsAux (next :: rest2) { p with options := objSet p.options key (.str value) }
        | [] =>
          if !jsStartsWith next "-" then
            parseArgsAux rest2 { p with options := objSet p.options key (.str next) }
          else
            parseArgsAux (next :: rest2) { p with options := objSet p.options key (.bool true) }
      else
        let flag := jsSlice arg 1
        if !jsStartsWith next "-" then
          parseArgsAux rest2 { p with options := objSet p.options flag (.str next) }
        else
          parseArgsAux (next :: rest2) { p with options := objSet p.options flag (.bool true) }
    else
      if p.command.isNone then parseArgsAux (next :: rest2) { p with command := some arg }
      else parseArgsAux (next :: rest2) { p with positional := p.positional ++ [arg] }

/-- Model of `parseArgs()` applied to the process argument list. -/
def parseArgs (argv : List String) : Parsed :=
  parseArgsAux argv { command := none, positional := [], options := [] }

/-! ## Query-string builder (`buildQueryString`, lines 70-78) -/

/-- The `parts` array accumulated by `buildQueryString` in iteration
order: one `key=value` piece per entry whose value is neither `null` nor
`undefined`, both sides `encodeURIComponent`-encoded. -/
def buildQueryParts : List (String × Js) → List String
  | [] => []
  | (k, v) :: rest =>
    match v with
    | .null => buildQueryParts rest
    | .undef => buildQueryParts rest
    | v => (encodeURIComponent k ++ "=" ++ encodeURIComponent v.toStr) :: buildQueryParts rest

/-- Model of `buildQueryString(params)`: the parts joined with `&`. -/
def buildQueryString (params : List (String × Js)) : String :=
  String.intercalate "&" (buildQueryParts params)

/-! ## Output markers

The source file stores its emoji prefixes as the literal (mojibake)
characters below; the constants reproduce them codepoint for codepoint. -/

/-- Calendar marker (lines 348, 430, 437, 472, ...). -/
def calMark : String := "üìÖ"

/-- Location pin marker (line 330). -/
def pinMark : String := "üìç"

/-- Attendees marker (line 334). -/
def pplMark : String := "üë•"

/-- Status warning marker (line 338). -/
def warnMark : String := "‚ö†Ô∏è"

/-- Success check marker (line 395). -/
def checkMark : String := "‚úÖ"

/-- Failure cross marker (error messages). -/
def crossMark : String := "‚ùå"

/-- Clock marker for event lines (lines 482, 534, 599). -/
def clockMark : String := "‚è∞"

/-- Search marker (line 585). -/
def searchMark : String := "üîç"

/-- Hint bulb marker (lines 409, 540, 713, 720). -/
def bulbMark : String := "üí°"

/-- Lock marker (line 397). -/
def lockMark : String := "üîê"

/-- Mail marker (line 402). -/
def mailMark : String := "üìß"

/-! ## Host environment

Everything the program observes from its host: the secure-token
capability, the HTTP transport, and `Date` behaviour (current time,
ISO rendering, locale rendering, date parsing). -/

/-- The response object `authenticatedFetch` yields: `ok`, `status`,
`statusText` and the decoded JSON body. -/
structure Response where
  ok : Bool
  status : Int
  statusText : String
  body : Js

/-- The host environment of one process invocation. -/
structure Env where
  /-- Whether the secure token system exists (`typeof hasToken !== 'undefined'`). -/
  tokenSystem : Bool
  /-- The capability check by credential name (`hasToken(name)`). -/
  hasToken : String → Bool
  /-- The transport: `authenticatedFetch('google-calendar', url, opts)` as a
  function of the url (the options are the fixed timeout the source passes). -/
  fetch : String → Response
  /-- `Date.now()` at this invocation, epoch milliseconds. -/
  nowMs : Int
  /-- `new Date(ms).toISOString()` for a valid millisecond value. -/
  iso : Int → String
  /-- Epoch ms of today's local midnight (`new Date(y, m, d)`). -/
  startOfTodayMs : Int
  /-- Epoch ms of the next local midnight (`new Date(y, m, d + 1)`). -/
  endOfTodayMs : Int
  /-- `new Date(s).toLocaleTimeString('en-US', {hour, minute, hour12})`. -/
  localeTime : String → String
  /-- `new Date(s).toLocaleDateString('en-US', {weekday, month, day, year})`. -/
  localeDate : String → String
  /-- `new Date(s).toLocaleString()`. -/
  localeString : String → String
  /-- `new Date(s).getTime()`: `none` models an invalid date (`NaN`). -/
  parseDateMs : String → Option Int
  /-- Whether `process.env.DEBUG` is set. -/
  debugEnv : Bool

/-! ## Time/date display helpers (lines 81-125) -/

/-- Model of `formatTime(dateTimeStr)`: empty for a falsy argument, else the
host's locale time rendering of the coerced string. -/
def formatTime (env : Env) (dateTimeStr : Js) : String :=
  if !dateTimeStr.truthy then "" else env.localeTime dateTimeStr.toStr

/-- Model of `formatDate(dateTimeStr)`: empty for a falsy argument, else the
host's locale date rendering of the coerced string. -/
def formatDate (env : Env) (dateTimeStr : Js) : String :=
  if !dateTimeStr.truthy then "" else env.localeDate dateTimeStr.toStr

/-! ## Event normalizer/formatter (`EventFormatter`, lines 284-343) -/

namespace EventFormatter

/-- Model of `EventFormatter.format(event)`: the NormalizedEvent, an object
with the sixteen fields of lines 290-307. -/
def format (event : Js) : Js :=
  let start := jsOr ((event.get "start").get "dateTime") ((event.get "start").get "date")
  let endv := jsOr ((event.get "end").get "dateTime") ((event.get "end").get "date")
  let isAllDay := !((event.get "start").get "dateTime").truthy
  Js.obj
    [("id", event.get "id"),
     ("summary", jsOr (event.get "summary") (.str "(No title)")),
     ("description", jsOr (event.get "description") (.str "")),
     ("location", jsOr (event.get "location") (.str "")),
     ("start", start),
     ("end", endv),
     ("isAllDay", .bool isAllDay),
     ("status", event.get "status"),
     ("created", event.get "created"),
     ("updated", event.get "updated"),
     ("htmlLink", event.get "htmlLink"),
     ("attendees", jsOr (event.get "attendees") (.arr [])),
     ("attendeeCount", jsLengthVal (jsOr (event.get "attendees") (.arr []))),
     ("organizer", event.get "organizer"),
     ("recurrence", event.get "recurrence"),
     ("reminders", event.get "reminders")]

/-- Model of `EventFormatter.formatTimeRange(event)` (lines 310-321). -/
def formatTimeRange (env : Env) (event : Js) : String :=
  let formatted := format event
  if (formatted.get "isAllDay").truthy then "All day"
  else formatTime env (formatted.get "start") ++ " - " ++ formatTime env (formatted.get "end")

/-- The display options `formatSummary` receives; the handlers pass raw
JavaScript values (`!args.options.summary` is a boolean, `args.options.full`
is whatever the parser stored), so the fields are `Js` and are tested for
truthiness. -/
structure FormatOpts where
  showLocation : Js := .undef
  showAttendees : Js := .undef
  showStatus : Js := Js.undef

/-- Model of `EventFormatter.formatSummary(event, options)` (lines 323-342):
the base line, then conditional continuation lines for location, attendee
count and status. -/
def formatSummary (env : Env) (event : Js) (options : FormatOpts) : String :=
  let formatted := format event
  let timeRange := formatTimeRange env event
  let summary0 := jsPadEnd timeRange 20 ++ " " ++ (formatted.get "summary").toStr
  let summary1 :=
    if options.showLocation.truthy && (formatted.get "location").truthy then
      summary0 ++ "\n" ++ jsPadEnd "" 22 ++ " " ++ pinMark ++ " " ++ (formatted.get "location").toStr
    else summary0
  let summary2 :=
    if options.showAttendees.truthy &&
        (match formatted.get "attendeeCount" with
         | .num n => decide (0 < n)
         | _ => false) then
      summary1 ++ "\n" ++ jsPadEnd "" 22 ++ " " ++ pplMark ++ " " ++
        (formatted.get "attendeeCount").toStr ++ " attendee(s)"
    else summary1
  if options.showStatus.truthy && jsStrictNeStr (formatted.get "status") "confirmed" then
    summary2 ++ "\n" ++ jsPadEnd "" 22 ++ " " ++ warnMark ++ "  " ++ (formatted.get "status").toStr
  else summary2

end EventFormatter

/-! ## Errors, trace events, runs -/

/-- A thrown JavaScript `Error`, with the extra fields `request` attaches
(`err.status`, `err.code`, `err.data`); plain errors leave them `undefined`. -/
structure JsErr where
  message : String
  status : Js := .undef
  code : Js := .undef
  data : Js := Js.undef

/-- One observable event of a process run. -/
inductive Ev where
  /-- Entry into the `CalendarClient` constructor. -/
  | construct
  /-- An `authenticatedFetch` call with its url. -/
  | fetch (url : String)
  /-- One `console.log` call (stdout). -/
  | out (s : String)
  /-- One `console.error` call (stderr). -/
  | err (s : String)
  /-- A `console.log(JSON.stringify(v, null, 2))` call. -/
  | outJson (v : Js)
  /-- A `console.error(JSON.stringify(v, null, 2))` call. -/
  | errJson (v : Js)

/-- How a piece of code finishes: plain return, `process.exit(code)`, or an
uncaught thrown error. -/
inductive ExitKind where
  | normal
  | exited (code : Nat)
  | threw (e : JsErr)

/-- The observable outcome of a handler or of the whole process. -/
structure Run where
  events : List Ev
  exit : ExitKind

/-- An apostrophe (kept out of string literals). -/
def apos : String := String.mk [Char.ofNat 39]

/-! ## Calendar service client (`CalendarClient`, lines 128-281) -/

namespace CalendarClient

/-- The fixed API base url (line 160). -/
def baseUrl : String := "https://www.googleapis.com/calendar/v3"

/-- The remediation lines the constructor prints to stderr when the
credential is unconfigured (lines 136-156). -/
def tokenConfigLines : List String :=
  ["Google Calendar token not configured.",
   "",
   "Add to ~/.pave/permissions.yaml:",
   "tokens:\n  google-calendar:\n    env: GOOGLE_CALENDAR_ACCESS_TOKEN\n    type: oauth\n    domains:\n      - www.googleapis.com\n      - \"*.googleapis.com\"\n    placement:\n      type: header\n      name: Authorization\n      format: \"Bearer {token}\"\n    refreshEnv: GOOGLE_CALENDAR_REFRESH_TOKEN\n    refreshUrl: https://oauth2.googleapis.com/token\n    clientIdEnv: GOOGLE_CALENDAR_CLIENT_ID\n    clientSecretEnv: GOOGLE_CALENDAR_CLIENT_SECRET",
   "",
   "Then set environment variables:",
   "  GOOGLE_CALENDAR_CLIENT_ID, GOOGLE_CALENDAR_CLIENT_SECRET, GOOGLE_CALENDAR_REFRESH_TOKEN"]

/-- The constructor (lines 129-161): throws when the secure-token
capability is missing; prints remediation to stderr and throws when the
named credential is unconfigured. -/
def construct (env : Env) : List Ev × Except JsErr Unit :=
  if !env.tokenSystem then
    ([.construct], .error { message := "Secure token system not available. Use: pave-run gcal.js" })
  else if !(env.hasToken "google-calendar") then
    ([.construct] ++ tokenConfigLines.map Ev.err,
     .error { message := "Google Calendar token not configured" })
  else
    ([.construct], .ok ())

/-- The error `request` raises from a non-ok response (lines 175-181),
including the remap of network permission denials (lines 186-188). -/
def requestError (response : Response) : JsErr :=
  let error := response.body
  let msgVal := (error.get "error").get "message"
  let message :=
    if msgVal.truthy then msgVal.toStr
    else "HTTP " ++ toString response.status ++ ": " ++ response.statusText
  if jsIncludes message "Network permission denied" then
    { message := "Network permission required: --allow-network=googleapis.com" }
  else
    { message := message, status := .num response.status,
      code := (error.get "error").get "code", data := error }

/-- Model of `request(endpoint, options)` (lines 166-191): one fetch, then
either the decoded body or a raised structured error. -/
def request (env : Env) (endpoint : String) : List Ev × Except JsErr Js :=
  let url := baseUrl ++ endpoint
  let response := env.fetch url
  if !response.ok then ([.fetch url], .error (requestError response))
  else ([.fetch url], .ok response.body)

/-- The query parameters of `listCalendars` (lines 197-201). -/
def listCalendarsParams (options : List (String × Js)) : List (String × Js) :=
  [("maxResults", jsOr (objGet options "maxResults") (.num 250)),
   ("showDeleted", jsOr (objGet options "showDeleted") (.bool false)),
   ("showHidden", jsOr (objGet options "showHidden") (.bool false))]

/-- Model of `listCalendars(options)` (lines 196-204). -/
def listCalendars (env : Env) (options : List (String × Js)) : List Ev × Except JsErr Js :=
  request env ("/users/me/calendarList?" ++ buildQueryString (listCalendarsParams options))

/-- Model of `getCalendar(calendarId)` (lines 209-211). -/
def getCalendar (env : Env) (calendarId : Js) : List Ev × Except JsErr Js :=
  request env ("/calendars/" ++ encodeURIComponent calendarId.toStr)

/-- The query parameters of `listEvents` (lines 217-225). -/
def listEventsParams (options : List (String × Js)) : List (String × Js) :=
  [("timeMin", objGet options "timeMin"),
   ("timeMax", objGet options "timeMax"),
   ("q", objGet options "query"),
   ("maxResults", jsOr (objGet options "maxResults") (.num 250)),
   ("singleEvents", .bool (match objGet options "singleEvents" with
      | .bool false => false
      | _ => true)),
   ("orderBy", jsOr (objGet options "orderBy") (.str "startTime")),
   ("showDeleted", jsOr (objGet options "showDeleted") (.bool false))]

/-- Model of `listEvents(calendarId, options)` (lines 216-228). -/
def listEvents (env : Env) (calendarId : Js) (options : List (String × Js)) :
    List Ev × Except JsErr Js :=
  request env ("/calendars/" ++ encodeURIComponent calendarId.toStr ++ "/events?" ++
    buildQueryString (listEventsParams options))

/-- The endpoint path of `getEvent` (line 234). -/
def getEventPath (calendarId eventId : Js) : String :=
  "/calendars/" ++ encodeURIComponent calendarId.toStr ++ "/events/" ++
    encodeURIComponent eventId.toStr

/-- Model of `getEvent(calendarId, eventId)` (lines 233-235). -/
def getEvent (env : Env) (calendarId eventId : Js) : List Ev × Except JsErr Js :=
  request env (getEventPath calendarId eventId)

/-- The options object `getTodayEvents` passes to `listEvents`
(lines 245-250); the spread `...options` re-applies the caller entries after
the defaults. -/
def getTodayEventsOptions (env : Env) (options : List (String × Js)) : List (String × Js) :=
  objSpread
    [("timeMin", .str (env.iso env.startOfTodayMs)),
     ("timeMax", .str (env.iso env.endOfTodayMs)),
     ("maxResults", jsOr (objGet options "maxResults") (.num 50))]
    options

/-- Model of `getTodayEvents(calendarId, options)` (lines 240-251). -/
def getTodayEvents (env : Env) (calendarId : Js) (options : List (String × Js)) :
    List Ev × Except JsErr Js :=
  listEvents env calendarId (getTodayEventsOptions env options)

/-- The options object `getUpcomingEvents` passes to `listEvents`
(lines 256-265). A `NaN` day count (modelled as `none`) makes
`new Date(now.getTime() + NaN).toISOString()` throw a `RangeError`. -/
def getUpcomingEventsOptions (env : Env) (days : Option Int)
    (options : List (String × Js)) : Except JsErr (List (String × Js)) :=
  match days with
  | none => .error { message := "Invalid time value" }
  | some d => .ok (objSpread
      [("timeMin", .str (env.iso env.nowMs)),
       ("timeMax", .str (env.iso (env.nowMs + d * 86400000))),
       ("maxResults", jsOr (objGet options "maxResults") (.num 100))]
      options)

/-- Model of `getUpcomingEvents(days, calendarId, options)` (lines 256-266). -/
def getUpcomingEvents (env : Env) (days : Option Int) (calendarId : Js)
    (options : List (String × Js)) : List Ev × Except JsErr Js :=
  match getUpcomingEventsOptions env days options with
  | .error e => ([], .error e)
  | .ok o => listEvents env calendarId o

/-- The options object `searchEvents` passes to `listEvents`
(lines 273-279); the spread `...options` re-applies the caller entries
after the defaults. -/
def searchEventsOptions (query : Js) (options : List (String × Js)) : List (String × Js) :=
  objSpread
    [("q", query),
     ("timeMin", objGet options "timeMin"),
     ("timeMax", objGet options "timeMax"),
     ("maxResults", jsOr (objGet options "maxResults") (.num 50))]
    options

/-- Model of `searchEvents(query, options)` (lines 271-280). -/
def searchEvents (env : Env) (query : Js) (options : List (String × Js)) :
    List Ev × Except JsErr Js :=
  let calendarId := jsOr (objGet options "calendar") (.str "primary")
  listEvents env calendarId (searchEventsOptions query options)

end CalendarClient

/-! ## Command handlers (lines 346-668) -/

/-- Model of the `printHelp()` text (lines 346-388), one `console.log`. -/
def helpText : String :=
  "\n" ++ calMark ++ " Google Calendar CLI - Secure Token Version\n\nUSAGE:\n  node gcal.js <command> [options]\n\nCOMMANDS:\n  auth                     Show authentication status\n  calendars               List all calendars\n  today                   Show today" ++ apos ++ "s events\n  upcoming [days]         Show upcoming events (default: 7 days)\n  list [calendar]         List events from specific calendar\n  search <query>          Search events\n  event <eventId>         Get specific event details\n\nOPTIONS:\n  -c, --calendar <id>     Calendar ID (default: primary)\n  -n, --max <count>       Maximum results (default: varies by command)\n  -q, --query <query>     Search query\n  -f, --from <date>       Start date (YYYY-MM-DD)\n  -t, --to <date>         End date (YYYY-MM-DD)\n  -d, --days <number>     Number of days for upcoming events\n  --summary               Show brief summary only\n  --full                  Show full event details\n  --json                  Output raw JSON\n\nEXAMPLES:\n  node gcal.js today --summary\n  node gcal.js upcoming 14 --calendar primary\n  node gcal.js search \"meeting\" --from 2026-01-01 --to 2026-01-31\n  node gcal.js calendars --json\n  node gcal.js list primary --max 20\n\nTOKEN SETUP:\n  Tokens are configured in ~/.pave/permissions.yaml\n  Environment variables needed:\n    GOOGLE_CALENDAR_CLIENT_ID       - OAuth client ID\n    GOOGLE_CALENDAR_CLIENT_SECRET   - OAuth client secret  \n    GOOGLE_CALENDAR_REFRESH_TOKEN   - OAuth refresh token\n    GOOGLE_CALENDAR_ACCESS_TOKEN    - (optional) Current access token\n"

/-- The repeated `args.options.calendar || args.options.c || 'primary'`
expression of the handlers (lines 460, 499, 561, 620). -/
def handlerCalendarId (args : Parsed) : Js :=
  jsOr (jsOr (objGet args.options "calendar") (objGet args.options "c")) (.str "primary")

/-- The repeated `args.options.max ? parseInt(args.options.max) : d`
expression of the handlers (lines 420, 463, 502, 565). -/
def maxResultsOpt (args : Parsed) (d : Int) : Js :=
  if (objGet args.options "max").truthy then
    jsOfParseInt (jsParseInt (objGet args.options "max").toStr)
  else .num d

/-- The display options every event-printing handler passes to
`formatSummary` (lines 477-479, 529-531, 593-595). -/
def handlerFormatOpts (args : Parsed) : EventFormatter.FormatOpts :=
  { showLocation := .bool (!(objGet args.options "summary").truthy),
    showAttendees := objGet args.options "full",
    showStatus := objGet args.options "full" }

/-- Model of `checkAuth()` (lines 390-414). -/
def checkAuth (env : Env) : Run :=
  let failLines := fun (e : JsErr) =>
    [Ev.err (crossMark ++ " Authentication failed: " ++ e.message)] ++
    (if jsIncludes e.message "not configured" then
      [Ev.err (bulbMark ++ " Configure google-calendar token in ~/.pave/permissions.yaml")]
     else [])
  match CalendarClient.construct env with
  | (evs, .error e) => { events := evs ++ failLines e, exit := .exited 1 }
  | (evs, .ok _) =>
    match CalendarClient.listCalendars env [("maxResults", .num 1)] with
    | (evs2, .error e) => { events := evs ++ evs2 ++ failLines e, exit := .exited 1 }
    | (evs2, .ok calendars) =>
      let countLine := Ev.out (calMark ++ " Access to " ++
        (jsOr (jsLengthVal (calendars.get "items")) (.num 0)).toStr ++ " calendar(s) confirmed")
      let primaryLine := match calendars.get "items" with
        | .arr (c :: cs) =>
          match (c :: cs).find? (fun cal => (cal.get "primary").truthy) with
          | some primary =>
            [Ev.out (mailMark ++ " Primary calendar: " ++ (primary.get "summary").toStr)]
          | none => []
        | _ => []
      { events := evs ++ evs2 ++
          [Ev.out (checkMark ++ " Authentication successful"), countLine,
           Ev.out (lockMark ++ " Using secure token system (credentials not exposed to sandbox)")] ++
          primaryLine,
        exit := .normal }

/-- Per-calendar output block of the `calendars` handler (lines 433-449). -/
def calendarLines (summaryOpt : Js) : List Js → List Ev
  | [] => []
  | cal :: rest =>
    let primary := if (cal.get "primary").truthy then " (PRIMARY)" else ""
    let access := if (cal.get "accessRole").truthy
      then " [" ++ (cal.get "accessRole").toStr ++ "]" else ""
    ([Ev.out (calMark ++ " " ++ (cal.get "summary").toStr ++ primary ++ access)] ++
     (if !summaryOpt.truthy then
        [Ev.out ("   ID: " ++ (cal.get "id").toStr)] ++
        (if (cal.get "description").truthy then
          [Ev.out ("   Description: " ++ (cal.get "description").toStr)] else []) ++
        (if (cal.get "timeZone").truthy then
          [Ev.out ("   Timezone: " ++ (cal.get "timeZone").toStr)] else []) ++
        [Ev.out ""]
      else [])) ++ calendarLines summaryOpt rest

/-- Model of the `calendars` handler `listCalendars(args)` (lines 416-455). -/
def listCalendars (env : Env) (args : Parsed) : Run :=
  let failLine := fun (e : JsErr) =>
    Ev.err (crossMark ++ " Failed to list calendars: " ++ e.message)
  match CalendarClient.construct env with
  | (evs, .error e) => { events := evs ++ [failLine e], exit := .exited 1 }
  | (evs, .ok _) =>
    let options := [("maxResults", if (objGet args.options "max").truthy
        then jsOfParseInt (jsParseInt (objGet args.options "max").toStr) else .num 250)]
    match CalendarClient.listCalendars env options with
    | (evs2, .error e) => { events := evs ++ evs2 ++ [failLine e], exit := .exited 1 }
    | (evs2, .ok calendars) =>
      if (objGet args.options "json").truthy then
        { events := evs ++ evs2 ++ [.outJson calendars], exit := .normal }
      else
        let header := Ev.out (calMark ++ " Found " ++
          (jsOr (jsLengthVal (calendars.get "items")) (.num 0)).toStr ++ " calendar(s):\n")
        let body := match calendars.get "items" with
          | .arr (c :: cs) => calendarLines (objGet args.options "summary") (c :: cs)
          | _ => []
        { events := evs ++ evs2 ++ [header] ++ body, exit := .normal }

/-- Model of `showToday(args)` (lines 457-491). -/
def showToday (env : Env) (args : Parsed) : Run :=
  let failLine := fun (e : JsErr) =>
    Ev.err (crossMark ++ " Failed to get today" ++ apos ++ "s events: " ++ e.message)
  match CalendarClient.construct env with
  | (evs, .error e) => { events := evs ++ [failLine e], exit := .exited 1 }
  | (evs, .ok _) =>
    let calendarId := handlerCalendarId args
    match CalendarClient.getTodayEvents env calendarId [("maxResults", maxResultsOpt args 50)] with
    | (evs2, .error e) => { events := evs ++ evs2 ++ [failLine e], exit := .exited 1 }
    | (evs2, .ok events) =>
      if (objGet args.options "json").truthy then
        { events := evs ++ evs2 ++ [.outJson events], exit := .normal }
      else
        let today := formatDate env (.str (env.iso env.nowMs))
        let header := Ev.out (calMark ++ " Events for " ++ today ++ ":\n")
        let body := match events.get "items" with
          | .arr (e0 :: es) => (e0 :: es).map (fun event =>
              Ev.out (clockMark ++ " " ++
                EventFormatter.formatSummary env event (handlerFormatOpts args) ++ "\n"))
          | _ => [Ev.out (calMark ++ " No events scheduled for today")]
        { events := evs ++ evs2 ++ [header] ++ body, exit := .normal }

/-- The day-count resolution of `showUpcoming` (lines 496-498): a truthy
first positional wins, then `--days`, then `-d`, else 7; `none` is `NaN`. -/
def showUpcomingDays (args : Parsed) : Option Int :=
  if (args.positional.headD "") != "" then jsParseInt (args.positional.headD "")
  else if (objGet args.options "days").truthy then jsParseInt (objGet args.options "days").toStr
  else if (objGet args.options "d").truthy then jsParseInt (objGet args.options "d").toStr
  else some 7

/-- The day count as the template literals display it (`NaN` included). -/
def daysDisplay : Option Int → String
  | some n => toString n
  | none => "NaN"

/-- The display loop of `showUpcoming` (lines 513-536): a date separator
whenever the iteration reaches a new date, at most `maxDisplay` events. -/
def upcomingLoop (env : Env) (args : Parsed) (maxDisplay : Nat) :
    List Js → String → Nat → List Ev
  | [], _, _ => []
  | event :: rest, currentDate, count =>
    if maxDisplay ≤ count then []
    else
      let start := jsOr ((event.get "start").get "dateTime") ((event.get "start").get "date")
      let eventDate := formatDate env start
      let sep := if eventDate != currentDate then [Ev.out ("--- " ++ eventDate ++ " ---")] else []
      let newCurrent := if eventDate != currentDate then eventDate else currentDate
      let summary := EventFormatter.formatSummary env event (handlerFormatOpts args)
      sep ++ [Ev.out (clockMark ++ " " ++ summary ++ "\n")] ++
        upcomingLoop env args maxDisplay rest newCurrent (count + 1)

/-- Model of `showUpcoming(args)` (lines 493-549). -/
def showUpcoming (env : Env) (args : Parsed) : Run :=
  let failLine := fun (e : JsErr) =>
    Ev.err (crossMark ++ " Failed to get upcoming events: " ++ e.message)
  match CalendarClient.construct env with
  | (evs, .error e) => { events := evs ++ [failLine e], exit := .exited 1 }
  | (evs, .ok _) =>
    let days := showUpcomingDays args
    let calendarId := handlerCalendarId args
    match CalendarClient.getUpcomingEvents env days calendarId
        [("maxResults", maxResultsOpt args 100)] with
    | (evs2, .error e) => { events := evs ++ evs2 ++ [failLine e], exit := .exited 1 }
    | (evs2, .ok events) =>
      if (objGet args.options "json").truthy then
        { events := evs ++ evs2 ++ [.outJson events], exit := .normal }
      else
        let header := Ev.out (calMark ++ " Upcoming events (next " ++ daysDisplay days ++ " days):\n")
        let maxDisplay : Nat := if (objGet args.options "summary").truthy then 10 else 50
        let body := match events.get "items" with
          | .arr (e0 :: es) =>
            upcomingLoop env args maxDisplay (e0 :: es) "" 0 ++
            (if maxDisplay < (e0 :: es).length then
              [Ev.out ("... and " ++ toString (((e0 :: es).length : Int) - (maxDisplay : Int)) ++
                 " more events"),
               Ev.out (bulbMark ++ " Use --max to increase limit or remove --summary for more details")]
             else [])
          | _ => [Ev.out (calMark ++ " No upcoming events in the next " ++ daysDisplay days ++ " days")]
        { events := evs ++ evs2 ++ [header] ++ body, exit := .normal }

/-- The `--from`/`--to` handling of the `search` handler (lines 568-576):
`new Date(v).toISOString()` throws a `RangeError` on an unparseable date. -/
def searchTimeBounds (env : Env) (args : Parsed) (options : List (String × Js)) :
    Except JsErr (List (String × Js)) :=
  let fromV := jsOr (objGet args.options "from") (objGet args.options "f")
  let toV := jsOr (objGet args.options "to") (objGet args.options "t")
  match
    (if fromV.truthy then
      match env.parseDateMs fromV.toStr with
      | none => Except.error ({ message := "Invalid time value" } : JsErr)
      | some ms => Except.ok (objSet options "timeMin" (.str (env.iso ms)))
     else Except.ok options) with
  | .error e => .error e
  | .ok o1 =>
    if toV.truthy then
      match env.parseDateMs toV.toStr with
      | none => .error { message := "Invalid time value" }
      | some ms => .ok (objSet o1 "timeMax" (.str (env.iso ms)))
    else .ok o1

/-- Per-result output lines of the `search` handler (lines 588-600). -/
def searchResultLines (env : Env) (args : Parsed) : List Js → List Ev
  | [] => []
  | event :: rest =>
    let start := jsOr ((event.get "start").get "dateTime") ((event.get "start").get "date")
    let eventDate := formatDate env start
    let summary := EventFormatter.formatSummary env event (handlerFormatOpts args)
    [Ev.out (calMark ++ " " ++ eventDate),
     Ev.out (clockMark ++ " " ++ summary ++ "\n")] ++ searchResultLines env args rest

/-- Model of the `search` handler `searchEvents(args)` (lines 551-608). -/
def searchEvents (env : Env) (args : Parsed) : Run :=
  let failLine := fun (e : JsErr) => Ev.err (crossMark ++ " Search failed: " ++ e.message)
  if args.positional.isEmpty then
    { events := [.err (crossMark ++ " Search query required"),
                 .err "Usage: node gcal.js search \"meeting\""],
      exit := .exited 1 }
  else
    match CalendarClient.construct env with
    | (evs, .error e) => { events := evs ++ [failLine e], exit := .exited 1 }
    | (evs, .ok _) =>
      let query := args.positional.headD ""
      let calendarId := handlerCalendarId args
      let options := [("calendar", calendarId), ("maxResults", maxResultsOpt args 50)]
      match searchTimeBounds env args options with
      | .error e => { events := evs ++ [failLine e], exit := .exited 1 }
      | .ok options2 =>
        match CalendarClient.searchEvents env (.str query) options2 with
        | (evs2, .error e) => { events := evs ++ evs2 ++ [failLine e], exit := .exited 1 }
        | (evs2, .ok events) =>
          if (objGet args.options "json").truthy then
            { events := evs ++ evs2 ++ [.outJson events], exit := .normal }
          else
            let header := Ev.out (searchMark ++ " Search results for \"" ++ query ++ "\":\n")
            let body := match events.get "items" with
              | .arr (e0 :: es) => searchResultLines env args (e0 :: es)
              | _ => [Ev.out (calMark ++ " No events found matching \"" ++ query ++ "\"")]
            { events := evs ++ evs2 ++ [header] ++ body, exit := .normal }

/-- Attendee lines of the `event` handler (lines 646-650). -/
def attendeeLines : List Js → List Ev
  | [] => []
  | a :: rest =>
    let name := jsOr (a.get "displayName") (a.get "email")
    let status := jsOr (a.get "responseStatus") (.str "unknown")
    Ev.out ("  - " ++ name.toStr ++ " (" ++ status.toStr ++ ")") :: attendeeLines rest

/-- Model of `showEvent(args)` (lines 610-668). -/
def showEvent (env : Env) (args : Parsed) : Run :=
  let failLine := fun (e : JsErr) => Ev.err (crossMark ++ " Failed to get event: " ++ e.message)
  if args.positional.isEmpty then
    { events := [.err (crossMark ++ " Event ID required"),
                 .err "Usage: node gcal.js event <eventId>"],
      exit := .exited 1 }
  else
    match CalendarClient.construct env with
    | (evs, .error e) => { events := evs ++ [failLine e], exit := .exited 1 }
    | (evs, .ok _) =>
      let eventId := args.positional.headD ""
      let calendarId := handlerCalendarId args
      match CalendarClient.getEvent env calendarId (.str eventId) with
      | (evs2, .error e) => { events := evs ++ evs2 ++ [failLine e], exit := .exited 1 }
      | (evs2, .ok event) =>
        if (objGet args.options "json").truthy then
          { events := evs ++ evs2 ++ [.outJson event], exit := .normal }
        else
          let formatted := EventFormatter.format event
          let attendees := match formatted.get "attendees" with
            | .arr xs => xs
            | _ => []
          { events := evs ++ evs2 ++
              [Ev.out (calMark ++ " Event Details:\n"),
               Ev.out ("Title: " ++ (formatted.get "summary").toStr),
               Ev.out ("Time: " ++ EventFormatter.formatTimeRange env event),
               Ev.out ("Date: " ++ formatDate env (formatted.get "start"))] ++
              (if (formatted.get "location").truthy then
                [Ev.out ("Location: " ++ (formatted.get "location").toStr)] else []) ++
              (if (formatted.get "description").truthy then
                [Ev.out ("Description: " ++ (formatted.get "description").toStr)] else []) ++
              (if 0 < attendees.length then
                [Ev.out ("\nAttendees (" ++ toString attendees.length ++ "):")] ++
                attendeeLines (attendees.take 10) ++
                (if 10 < attendees.length then
                  [Ev.out ("  ... and " ++ toString ((attendees.length : Int) - 10) ++ " more")]
                 else [])
               else []) ++
              [Ev.out ("\nStatus: " ++ (formatted.get "status").toStr),
               Ev.out ("Created: " ++ env.localeString (formatted.get "created").toStr),
               Ev.out ("Updated: " ++ env.localeString (formatted.get "updated").toStr)] ++
              (if (formatted.get "htmlLink").truthy then
                [Ev.out ("Link: " ++ (formatted.get "htmlLink").toStr)] else []),
            exit := .normal }

/-! ## Main dispatch (`main`, lines 671-738) -/

/-- The `catch` block of `main` (lines 716-733): plain message, sandbox
hint, and under `--json` the error envelope to stderr (stack traces are
outside the model). Every handler catches its own errors and exits, so
`mainRun` only reaches this for a `threw` outcome a handler never
produces. -/
def mainCatch (parsed : Parsed) (debugEnv : Bool) (events : List Ev) (e : JsErr) : Run :=
  { events := events ++
      [.err (crossMark ++ " Execution failed: " ++ e.message)] ++
      (if jsIncludes e.message "Secure token system" then
        [.err (bulbMark ++ " This script must run in sandbox: pave-run gcal.js")] else []) ++
      (if (objGet parsed.options "json").truthy then
        [.errJson (.obj [("error", .str e.message), ("status", e.status), ("data", e.data)])]
       else if debugEnv then [.err "Stack trace:"] else []),
    exit := .exited 1 }

/-- Model of `main()` (lines 671-738): help for a falsy command, `help`, or
`--help`; otherwise dispatch, with `list` forcing `options.days = '365'`
before delegating to `showUpcoming`, and unknown commands exiting 1. -/
def mainRun (env : Env) (argv : List String) : Run :=
  let parsed := parseArgs argv
  if (parsed.command.getD "") == "" || parsed.command == some "help" ||
      (objGet parsed.options "help").truthy then
    { events := [.out helpText], exit := .normal }
  else
    let r :=
      match parsed.command.getD "" with
      | "auth" => checkAuth env
      | "calendars" => listCalendars env parsed
      | "today" => showToday env parsed
      | "upcoming" => showUpcoming env parsed
      | "search" => searchEvents env parsed
      | "event" => showEvent env parsed
      | "list" =>
        showUpcoming env { parsed with options := objSet parsed.options "days" (.str "365") }
      | cmd =>
        { events := [.err (crossMark ++ " Unknown command: " ++ cmd),
                     .err (bulbMark ++ " Run: node gcal.js help")],
          exit := .exited 1 }
    match r.exit with
    | .threw e => mainCatch parsed env.debugEnv r.events e
    | _ => r

/-- The process exit code of a run (a plain return of `main` ends the
process with code 0). -/
def exitCodeOf (r : Run) : Nat :=
  match r.exit with
  | .normal => 0
  | .exited c => c
  | .threw _ => 1

/-! ## Trace observables -/

/-- The number of `authenticatedFetch` calls in a trace. -/
def fetchCount : List Ev → Nat
  | [] => 0
  | .fetch _ :: rest => fetchCount rest + 1
  | _ :: rest => fetchCount rest

/-- The number of `CalendarClient` constructions in a trace. -/
def constructCount : List Ev → Nat
  | [] => 0
  | .construct :: rest => constructCount rest + 1
  | _ :: rest => constructCount rest

/-- Whether a trace contains no JSON error envelope on stderr. -/
def errJsonFree : List Ev → Bool
  | [] => true
  | .errJson _ :: _ => false
  | _ :: rest => errJsonFree rest

/-- The number of displayed-event stdout lines (lines prefixed by the
clock marker). -/
def clockLineCount : List Ev → Nat
  | [] => 0
  | .out s :: rest => (if jsStartsWith s (clockMark ++ " ") then 1 else 0) + clockLineCount rest
  | _ :: rest => clockLineCount rest

/-- The number of stdout lines equal to a given string. -/
def outCount (s : String) : List Ev → Nat
  | [] => 0
  | .out t :: rest => (if t == s then 1 else 0) + outCount s rest
  | _ :: rest => outCount s rest

/-! ## JSON round-trip (for re-normalization) -/

mutual
/-- Model of `JSON.parse(JSON.stringify(v))` on a JSON-compatible value:
object entries whose value is `undefined` are dropped; `undefined` and
`NaN` become `null` elsewhere. -/
def jsonRound : Js → Js
  | .undef => .undef
  | .null => .null
  | .nan => .null
  | .bool b => .bool b
  | .num n => .num n
  | .str s => .str s
  | .arr xs => .arr (jsonRoundArr xs)
  | .obj fs => .obj (jsonRoundFields fs)

/-- Array elements under the JSON round-trip (`undefined` becomes `null`). -/
def jsonRoundArr : List Js → List Js
  | [] => []
  | .undef :: rest => .null :: jsonRoundArr rest
  | x :: rest => jsonRound x :: jsonRoundArr rest

/-- Object fields under the JSON round-trip (`undefined`-valued dropped). -/
def jsonRoundFields : List (String × Js) → List (String × Js)
  | [] => []
  | (_, .undef) :: rest => jsonRoundFields rest
  | (k, v) :: rest => (k, jsonRound v) :: jsonRoundFields rest
end

/-! ## Statement-side definitions (observers, specification forms, and
concrete inputs used by the closed theorems) -/

/-- Well-formedness of the parsed option mapping: every stored value is a
string or boolean `true` (the shape the ParsedArguments contract names). -/
def optionsWellFormed (o : List (String × Js)) : Bool :=
  o.all (fun kv => match kv.2 with
    | .str _ => true
    | .bool true => true
    | _ => false)

/-- Specification-side form of the query-string contract, for the
refinement comparison: exactly the entries whose value is neither `null`
nor `undefined`, in mapping order, with key and coerced value
percent-encoded. -/
def buildQueryStringSpec (params : List (String × Js)) : String :=
  String.intercalate "&" (params.filterMap (fun kv =>
    match kv.2 with
    | .null => none
    | .undef => none
    | v => some (encodeURIComponent kv.1 ++ "=" ++ encodeURIComponent v.toStr)))

/-- Whether a value is not an object, so that property access on it yields
`undefined`. -/
def nonObj : Js → Bool
  | .obj _ => false
  | _ => true

/-- The field replacement a second normalization pass performs on a
NormalizedEvent: `start` and `end` cleared to `undefined`, `isAllDay`
forced to `true`, every other field kept. -/
def stripTimes : Js → Js
  | .obj fs => .obj (fs.map (fun kv =>
      if kv.1 == "start" || kv.1 == "end" then (kv.1, Js.undef)
      else if kv.1 == "isAllDay" then (kv.1, Js.bool true)
      else kv))
  | v => v

/-- A concrete host environment for the closed runs: both capability checks
succeed, the clock is frozen at epoch 0, ISO rendering is the decimal
millisecond value, locale rendering is the identity, and the transport is
the given function. -/
def testEnv (fetch : String → Response) : Env :=
  { tokenSystem := true
    hasToken := fun _ => true
    fetch := fetch
    nowMs := 0
    iso := fun n => toString n
    startOfTodayMs := 0
    endOfTodayMs := 86400000
    localeTime := fun s => s
    localeDate := fun s => s
    localeString := fun s => s
    parseDateMs := fun _ => none
    debugEnv := false }

/-- An environment whose remote service answers every request with
HTTP 404 and a standard error body. -/
def env404 : Env :=
  testEnv (fun _ =>
    { ok := false, status := 404, statusText := "Not Found",
      body := .obj [("error", .obj [("message", .str "Not Found"), ("code", .num 404)])] })

/-- An environment whose remote service answers every request with an
empty event list. -/
def envEmptyItems : Env :=
  testEnv (fun _ =>
    { ok := true, status := 200, statusText := "OK", body := .obj [("items", .arr [])] })

/-- An environment whose remote service answers every request with the
given event list. -/
def envItems (items : List Js) : Env :=
  testEnv (fun _ =>
    { ok := true, status := 200, statusText := "OK", body := .obj [("items", .arr items)] })

/-- A well-formed timed EventRecord used by the closed normalization runs. -/
def c3Event : Js :=
  Js.obj [("id", .str "e1"),
          ("summary", .str "Standup"),
          ("start", .obj [("dateTime", .str "2026-01-01T10:00:00+00:00")]),
          ("end", .obj [("dateTime", .str "2026-01-01T11:00:00+00:00")]),
          ("status", .str "confirmed")]

/-- An all-day EventRecord with no `status` field, used by the closed
summary-formatting runs. -/
def c4Event : Js := Js.obj [("summary", .str "Meeting")]

/-- The url `showEvent` fetches for a given parsed argument record. -/
def showEventUrl (args : Parsed) : String :=
  CalendarClient.baseUrl ++
    CalendarClient.getEventPath (handlerCalendarId args) (.str (args.positional.headD ""))

/-- The status continuation line `formatSummary` appends (line 338). -/
def statusContinuation (event : Js) : String :=
  "\n" ++ jsPadEnd "" 22 ++ " " ++ warnMark ++ "  " ++
    ((EventFormatter.format event).get "status").toStr

/-- The count of events that lie beyond the display limit, as the notice
line prints it. -/
def moreEventsNotice (n : Int) : String := "... and " ++ toString n ++ " more events"

/-! ## Lemmas about the split primitive -/

theorem splitChar_ne_nil (sep : Char) : ∀ l : List Char, splitChar sep l ≠ []
  | [] => by simp [splitChar]
  | c :: cs => by
    simp only [splitChar]
    split
    · simp
    · split
      · simp
      · simp

theorem splitChar_append_sep (sep : Char) (k v : List Char) (hk : sep ∉ k) :
    splitChar sep (k ++ sep :: v) = k :: splitChar sep v := by
  induction k with
  | nil => simp [splitChar]
  | cons c cs ih =>
    have hc : c ≠ sep := by rintro rfl; exact hk (List.mem_cons_self _ _)
    have hcs : sep ∉ cs := fun h => hk (List.mem_cons_of_mem _ h)
    simp only [List.cons_append, splitChar, if_neg (by simpa using hc)]
    rw [show cs.append (sep :: v) = cs ++ sep :: v from rfl, ih hcs]

theorem splitChar_no_sep (sep : Char) (k : List Char) (hk : sep ∉ k) :
    splitChar sep k = [k] := by
  induction k with
  | nil => simp [splitChar]
  | cons c cs ih =>
    have hc : c ≠ sep := by rintro rfl; exact hk (List.mem_cons_self _ _)
    have hcs : sep ∉ cs := fun h => hk (List.mem_cons_of_mem _ h)
    simp only [splitChar, if_neg (by simpa using hc), ih hcs]

/-! ## Lemmas about the option mapping -/

theorem optionsWellFormed_objSet (o : List (String × Js)) (k : String) (v : Js)
    (ho : optionsWellFormed o = true)
    (hv : (match v with | .str _ => true | .bool true => true | _ => false) = true) :
    optionsWellFormed (objSet o k v) = true := by
  induction o with
  | nil => simp [objSet, optionsWellFormed, hv]
  | cons kv t ih =>
    obtain ⟨k0, v0⟩ := kv
    simp only [optionsWellFormed, List.all_cons, Bool.and_eq_true] at ho
    simp only [objSet]
    split
    · simp [optionsWellFormed, hv, ho.2]
    · have h2 := ih ho.2
      simp only [optionsWellFormed, List.all_cons, Bool.and_eq_true] at h2 ⊢
      exact ⟨ho.1, h2⟩

theorem parseArgsAux_wf (l : List String) (p : Parsed) :
    optionsWellFormed p.options = true →
    optionsWellFormed (parseArgsAux l p).options = true := by
  induction l, p using parseArgsAux.induct with
  | case1 p => intro hp; simpa [parseArgsAux]
  | case2 arg p h1 h2 parts key value tail hdrop ih =>
    intro hp
    rw [parseArgsAux]
    simp only [h1, h2, eq_self_iff_true, if_true]
    rw [show List.drop 1 (jsSplitLimit (jsSlice arg 2) (Char.ofNat 61) 2) = value :: tail from hdrop]
    exact ih (optionsWellFormed_objSet _ _ _ hp rfl)
  | case3 arg p h1 h2 parts key hdrop ih =>
    intro hp
    rw [parseArgsAux]
    simp only [h1, h2, eq_self_iff_true, if_true]
    rw [show List.drop 1 (jsSplitLimit (jsSlice arg 2) (Char.ofNat 61) 2) = [] from hdrop]
    exact ih (optionsWellFormed_objSet _ _ _ hp rfl)
  | case4 arg p h1 h2 ih =>
    intro hp
    rw [parseArgsAux]
    simp only [h1, eq_self_iff_true, if_true]
    rw [if_neg h2]
    exact ih (optionsWellFormed_objSet _ _ _ hp rfl)
  | case5 arg p h1 h2 ih =>
    intro hp
    rw [parseArgsAux]
    rw [if_neg h1]
    simp only [h2, if_true]
    exact ih hp
  | case6 arg p h1 h2 ih =>
    intro hp
    rw [parseArgsAux]
    rw [if_neg h1]
    rw [if_neg h2]
    exact ih hp
  | case7 arg next rest2 p h1 h2 parts key value tail hdrop ih =>
    intro hp
    rw [parseArgsAux]
    simp only [h1, h2, eq_self_iff_true, if_true]
    rw [show List.drop 1 (jsSplitLimit (jsSlice arg 2) (Char.ofNat 61) 2) = value :: tail from hdrop]
    exact ih (optionsWellFormed_objSet _ _ _ hp rfl)
  | case8 arg next rest2 p h1 h2 parts key hdrop hnext ih =>
    intro hp
    rw [parseArgsAux]
    simp only [h1, h2, eq_self_iff_true, if_true]
    rw [show List.drop 1 (jsSplitLimit (jsSlice arg 2) (Char.ofNat 61) 2) = [] from hdrop]
    simp only [hnext, if_true]
    exact ih (optionsWellFormed_objSet _ _ _ hp rfl)
  | case9 arg next rest2 p h1 h2 parts key hdrop hnext ih =>
    intro hp
    rw [parseArgsAux]
    simp only [h1, h2, eq_self_iff_true, if_true]
    rw [show List.drop 1 (jsSplitLimit (jsSlice arg 2) (Char.ofNat 61) 2) = [] from hdrop]
    rw [if_neg hnext]
    exact ih (optionsWellFormed_objSet _ _ _ hp rfl)
  | case10 arg next rest2 p h1 h2 flag hnext ih =>
    intro hp
    rw [parseArgsAux]
    simp only [h1, eq_self_iff_true, if_true]
    rw [if_neg h2]
    simp only [hnext, if_true]
    exact ih (optionsWellFormed_objSet _ _ _ hp rfl)
  | case11 arg next rest2 p h1 h2 flag hnext ih =>
    intro hp
    rw [parseArgsAux]
    simp only [h1, eq_self_iff_true, if_true]
    rw [if_neg h2]
    rw [if_neg hnext]
    exact ih (optionsWellFormed_objSet _ _ _ hp rfl)
  | case12 arg next rest2 p h1 h2 ih =>
    intro hp
    rw [parseArgsAux]
    rw [if_neg h1]
    simp only [h2, if_true]
    exact ih hp
  | case13 arg next rest2 p h1 h2 ih =>
    intro hp
    rw [parseArgsAux]
    rw [if_neg h1]
    rw [if_neg h2]
    exact ih hp

/-! ## Claim C5 -/

/-- C5 (counterexample): for the token `--a=b=c` the parser stores the
option value `"b"`, not the whole remainder `"b=c"` the claim asserts:
JavaScript `split('=', 2)` truncates to the first two fields. -/
theorem C5_counterexample_remainder_discarded :
    (parseArgs ["--a=b=c"]).options = [("a", Js.str "b")] ∧ Js.str "b" ≠ Js.str "b=c" := by
  refine ⟨rfl, ?_⟩
  simp

/-- C5 (amended): a long option token containing `=` is split on `=` and
only the first two fields are kept: the key is the text before the first
`=`, the value is the text between the first and the second `=`, and any
text after a second `=` is discarded. -/
theorem C5_long_option_value_between_first_two_eq (k v rest : String)
    (hk : Char.ofNat 61 ∉ k.toList) (hv : Char.ofNat 61 ∉ v.toList) :
    parseArgs ["--" ++ (k ++ "=" ++ v)] =
      { command := none, positional := [], options := [(k, Js.str v)] } ∧
    parseArgs ["--" ++ (k ++ "=" ++ (v ++ "=" ++ rest))] =
      { command := none, positional := [], options := [(k, Js.str v)] } := by
  constructor
  · have hpre1 : jsStartsWith ("--" ++ (k ++ "=" ++ v)) "-" = true := by
      simp [jsStartsWith, List.isPrefixOf, String.toList]
    have hpre2 : jsStartsWith ("--" ++ (k ++ "=" ++ v)) "--" = true := by
      simp [jsStartsWith, List.isPrefixOf, String.toList]
    have hslice : jsSlice ("--" ++ (k ++ "=" ++ v)) 2 = k ++ "=" ++ v := rfl
    have hdata : (k ++ "=" ++ v).toList = k.toList ++ Char.ofNat 61 :: v.toList := by
      simp [String.toList]
    have hsplit : jsSplit (k ++ "=" ++ v) (Char.ofNat 61) = [k, v] := by
      simp only [jsSplit, hdata, splitChar_append_sep _ _ _ hk, splitChar_no_sep _ _ hv]
      simp [String.toList]
    simp [parseArgs, parseArgsAux, hpre1, hpre2, hslice, jsSplitLimit, hsplit, objSet]
  · have hpre1 : jsStartsWith ("--" ++ (k ++ "=" ++ (v ++ "=" ++ rest))) "-" = true := by
      simp [jsStartsWith, List.isPrefixOf, String.toList]
    have hpre2 : jsStartsWith ("--" ++ (k ++ "=" ++ (v ++ "=" ++ rest))) "--" = true := by
      simp [jsStartsWith, List.isPrefixOf, String.toList]
    have hslice : jsSlice ("--" ++ (k ++ "=" ++ (v ++ "=" ++ rest))) 2 =
        k ++ "=" ++ (v ++ "=" ++ rest) := rfl
    have hdata : (k ++ "=" ++ (v ++ "=" ++ rest)).toList =
        k.toList ++ Char.ofNat 61 :: (v.toList ++ Char.ofNat 61 :: rest.toList) := by
      simp [String.toList]
    have hsplit : jsSplit (k ++ "=" ++ (v ++ "=" ++ rest)) (Char.ofNat 61) =
        k :: v :: (splitChar (Char.ofNat 61) rest.toList).map (fun cs => String.mk cs) := by
      simp only [jsSplit, hdata, splitChar_append_sep _ _ _ hk, splitChar_append_sep _ _ _ hv]
      simp [String.toList]
    simp [parseArgs, parseArgsAux, hpre1, hpre2, hslice, jsSplitLimit, hsplit, objSet]

/-- C5 (witness): the amended statement at `k = a`, `v = b`, `rest = c`. -/
theorem C5_long_option_witness :
    parseArgs ["--" ++ ("a" ++ "=" ++ ("b" ++ "=" ++ "c"))] =
      { command := none, positional := [], options := [("a", Js.str "b")] } :=
  (C5_long_option_value_between_first_two_eq "a" "b" "c" (by decide) (by decide)).2

/-! ## Claim C8 -/

/-- C8: for every argument list `parseArgs` returns a well-formed
ParsedArguments: every stored option value is a string or boolean `true`
(the command being an optional string and the positionals being an ordered
string sequence hold by the shape of `Parsed`), and the parser is a total
function, mirroring that the JavaScript loop can never raise. -/
theorem C8_parseArgs_total_and_wellFormed (argv : List String) :
    optionsWellFormed (parseArgs argv).options = true :=
  parseArgsAux_wf argv _ rfl

/-! ## Claim C9 -/

/-- C9: `buildQueryString` emits exactly the entries whose value is neither
`null` nor `undefined` (so boolean `false` and numeric `0` are kept), in
mapping insertion order, with key and coerced value percent-encoded: it
coincides with the specification-side `buildQueryStringSpec`. -/
theorem C9_buildQueryString_eq_spec (params : List (String × Js)) :
    buildQueryString params = buildQueryStringSpec params := by
  unfold buildQueryString buildQueryStringSpec
  congr 1
  induction params with
  | nil => rfl
  | cons kv rest ih =>
    obtain ⟨k, v⟩ := kv
    cases v <;> simp [buildQueryParts, List.filterMap_cons, ih]

/-! ## Lemmas about object update and spread -/

theorem objGet_cons_self (k : String) (v0 : Js) (t : List (String × Js)) :
    objGet ((k, v0) :: t) k = v0 := by
  simp [objGet, List.find?]

theorem objGet_cons_ne (k0 k : String) (v0 : Js) (t : List (String × Js)) (h : k0 ≠ k) :
    objGet ((k0, v0) :: t) k = objGet t k := by
  have hb : (k0 == k) = false := beq_eq_false_iff_ne.mpr h
  simp [objGet, List.find?, hb]

theorem objSet_cons_self (k : String) (v0 v : Js) (t : List (String × Js)) :
    objSet ((k, v0) :: t) k v = (k, v) :: t := by
  simp [objSet]

theorem objSet_cons_ne (k0 k : String) (v0 v : Js) (t : List (String × Js)) (h : k0 ≠ k) :
    objSet ((k0, v0) :: t) k v = (k0, v0) :: objSet t k v := by
  have hb : (k0 == k) = false := beq_eq_false_iff_ne.mpr h
  simp [objSet, hb]

theorem objGet_objSet_self (o : List (String × Js)) (k : String) (v : Js) :
    objGet (objSet o k v) k = v := by
  induction o with
  | nil => simp [objSet, objGet_cons_self]
  | cons kv t ih =>
    obtain ⟨k0, v0⟩ := kv
    by_cases h : k0 = k
    · subst h
      rw [objSet_cons_self, objGet_cons_self]
    · rw [objSet_cons_ne _ _ _ _ _ h, objGet_cons_ne _ _ _ _ h, ih]

theorem objGet_objSet_ne (o : List (String × Js)) (k0 k : String) (v : Js) (h : k0 ≠ k) :
    objGet (objSet o k0 v) k = objGet o k := by
  induction o with
  | nil =>
    show objGet [(k0, v)] k = objGet [] k
    rw [objGet_cons_ne _ _ _ _ h]
  | cons kv t ih =>
    obtain ⟨k1, v1⟩ := kv
    by_cases h1 : k1 = k0
    · subst h1
      rw [objSet_cons_self, objGet_cons_ne _ _ _ _ h, objGet_cons_ne _ _ _ _ h]
    · rw [objSet_cons_ne _ _ _ _ _ h1]
      by_cases h2 : k1 = k
      · subst h2
        rw [objGet_cons_self, objGet_cons_self]
      · rw [objGet_cons_ne _ _ _ _ h2, objGet_cons_ne _ _ _ _ h2, ih]

theorem objGet_objSpread (extra base : List (String × Js)) (k : String)
    (hnd : (extra.map Prod.fst).Nodup) :
    objGet (objSpread base extra) k =
      match extra.find? (fun kv => kv.1 == k) with
      | some kv => kv.2
      | none => objGet base k := by
  induction extra generalizing base with
  | nil => simp [objSpread]
  | cons kv t ih =>
    obtain ⟨k0, v0⟩ := kv
    simp only [List.map_cons, List.nodup_cons] at hnd
    have hstep : objSpread base ((k0, v0) :: t) = objSpread (objSet base k0 v0) t := rfl
    rw [hstep, ih _ hnd.2]
    by_cases h : k0 = k
    · subst h
      have hnone : t.find? (fun kv => kv.1 == k0) = none := by
        rw [List.find?_eq_none]
        intro kv hkv
        simp only [beq_iff_eq]
        intro hk
        exact hnd.1 (hk ▸ List.mem_map_of_mem Prod.fst hkv)
      simp [List.find?, hnone, objGet_objSet_self]
    · have hb : (k0 == k) = false := beq_eq_false_iff_ne.mpr h
      simp only [List.find?, hb]
      cases hf : t.find? (fun kv => kv.1 == k) with
      | none => simp [hf, objGet_objSet_ne _ _ _ _ h]
      | some kv2 => simp [hf]

/-! ## Claim C10 -/

theorem listEventsParams_maxResults (o : List (String × Js)) :
    objGet (CalendarClient.listEventsParams o) "maxResults" =
      jsOr (objGet o "maxResults") (Js.num 250) := rfl

/-- C10 (counterexample): a caller-supplied `maxResults` of `0` given to
`getTodayEvents` reaches the service as `250`, not as the `50` default the
claim names for this operation: the `...options` spread re-inserts the
caller `0` after the wrapper default, and `listEvents` then applies its own
`|| 250`. -/
theorem C10_counterexample_today_default_is_250 :
    objGet (CalendarClient.listEventsParams
        (CalendarClient.getTodayEventsOptions envEmptyItems [("maxResults", Js.num 0)]))
      "maxResults" = Js.num 250 ∧ Js.num 250 ≠ Js.num 50 := by
  refine ⟨rfl, ?_⟩
  simp

/-- C10 (amended): a caller-supplied `maxResults` of `0` is never sent: in
all five list operations the value actually sent is `250`. `listCalendars`
and `listEvents` apply their own `|| 250` defaults, while in
`getTodayEvents`, `getUpcomingEvents` and `searchEvents` the object spread
re-applies the caller entries after the wrapper defaults (50, 100, 50), so
the falsy `0` reaches `listEvents` and its `|| 250` replaces it. -/
theorem C10_maxResults_zero_becomes_250 (env : Env) (opts : List (String × Js))
    (d : Int) (q : Js)
    (hnd : (opts.map Prod.fst).Nodup)
    (h0 : objGet opts "maxResults" = Js.num 0) :
    objGet (CalendarClient.listCalendarsParams opts) "maxResults" = Js.num 250 ∧
    objGet (CalendarClient.listEventsParams opts) "maxResults" = Js.num 250 ∧
    objGet (CalendarClient.listEventsParams (CalendarClient.getTodayEventsOptions env opts))
      "maxResults" = Js.num 250 ∧
    (CalendarClient.getUpcomingEventsOptions env (some d) opts).map
      (fun o => objGet (CalendarClient.listEventsParams o) "maxResults") =
      Except.ok (Js.num 250) ∧
    objGet (CalendarClient.listEventsParams (CalendarClient.searchEventsOptions q opts))
      "maxResults" = Js.num 250 := by
  have hf : ∃ kv, opts.find? (fun kv => kv.1 == "maxResults") = some kv ∧ kv.2 = Js.num 0 := by
    cases hff : opts.find? (fun kv => kv.1 == "maxResults") with
    | none => simp [objGet, hff] at h0
    | some kv =>
      refine ⟨kv, rfl, ?_⟩
      simpa [objGet, hff] using h0
  obtain ⟨kv, hff, hkv⟩ := hf
  have hspread : ∀ base : List (String × Js),
      objGet (objSpread base opts) "maxResults" = Js.num 0 := by
    intro base
    rw [objGet_objSpread _ _ _ hnd, hff]
    exact hkv
  refine ⟨?_, ?_, ?_, ?_, ?_⟩
  · show jsOr (objGet opts "maxResults") (Js.num 250) = Js.num 250
    rw [h0]; rfl
  · rw [listEventsParams_maxResults, h0]; rfl
  · rw [listEventsParams_maxResults]
    rw [show CalendarClient.getTodayEventsOptions env opts =
      objSpread [("timeMin", Js.str (env.iso env.startOfTodayMs)),
                 ("timeMax", Js.str (env.iso env.endOfTodayMs)),
                 ("maxResults", jsOr (objGet opts "maxResults") (Js.num 50))] opts from rfl]
    rw [hspread]; rfl
  · rw [show CalendarClient.getUpcomingEventsOptions env (some d) opts =
      Except.ok (objSpread [("timeMin", Js.str (env.iso env.nowMs)),
                 ("timeMax", Js.str (env.iso (env.nowMs + d * 86400000))),
                 ("maxResults", jsOr (objGet opts "maxResults") (Js.num 100))] opts) from rfl]
    show Except.ok (objGet (CalendarClient.listEventsParams _) "maxResults") =
      Except.ok (Js.num 250)
    rw [listEventsParams_maxResults, hspread]
    rfl
  · rw [listEventsParams_maxResults]
    rw [show CalendarClient.searchEventsOptions q opts =
      objSpread [("q", q), ("timeMin", objGet opts "timeMin"),
                 ("timeMax", objGet opts "timeMax"),
                 ("maxResults", jsOr (objGet opts "maxResults") (Js.num 50))] opts from rfl]
    rw [hspread]; rfl

/-- C10 (witness): the amended statement at the one-entry options object
mapping `maxResults` to `0`. -/
theorem C10_maxResults_zero_witness :
    objGet (CalendarClient.listEventsParams
        (CalendarClient.getTodayEventsOptions envEmptyItems [("maxResults", Js.num 0)]))
      "maxResults" = Js.num 250 ∧
    objGet (CalendarClient.listEventsParams
        (CalendarClient.searchEventsOptions (Js.str "standup") [("maxResults", Js.num 0)]))
      "maxResults" = Js.num 250 := by
  have h := C10_maxResults_zero_becomes_250 envEmptyItems [("maxResults", Js.num 0)] 7
    (Js.str "standup") (by simp) rfl
  exact ⟨h.2.2.1, h.2.2.2.2⟩

/-! ## Claim C4 -/

/-- C4 (amended): `formatSummaryLine` appends the status continuation line
exactly when the status flag is set and the status value differs (by strict
inequality) from the string `confirmed` - including when the status field
is absent, in which case the line renders the absent value as
`undefined`. Formally, the output is the output with the status flag
cleared, followed by the continuation line when that condition holds. -/
theorem C4_status_line_appended_iff (env : Env) (event : Js)
    (options : EventFormatter.FormatOpts) :
    EventFormatter.formatSummary env event options =
      EventFormatter.formatSummary env event { options with showStatus := .undef } ++
      (if options.showStatus.truthy &&
          jsStrictNeStr ((EventFormatter.format event).get "status") "confirmed" then
        statusContinuation event
       else "") := by
  simp only [EventFormatter.formatSummary, statusContinuation]
  have hu : ¬((Js.undef.truthy &&
      jsStrictNeStr ((EventFormatter.format event).get "status") "confirmed") = true) := by
    simp [Js.truthy]
  cases h : options.showStatus.truthy &&
      jsStrictNeStr ((EventFormatter.format event).get "status") "confirmed" with
  | false =>
    rw [if_neg (show ¬(false = true) by simp), if_neg hu,
      if_neg (show ¬(false = true) by simp), String.append_empty]
  | true =>
    rw [if_pos (show (true = true) from rfl), if_neg hu,
      if_pos (show (true = true) from rfl)]
    simp [String.append_assoc]

/-- C4 (counterexample): an event with no `status` field does get a status
continuation line when the status flag is set (rendering `undefined`),
because `undefined !== 'confirmed'` holds; the claim says such an event
never gets one. -/
theorem C4_counterexample_absent_status_gets_line :
    c4Event.get "status" = Js.undef ∧
    EventFormatter.formatSummary envEmptyItems c4Event
        { showLocation := .undef, showAttendees := .undef, showStatus := .bool true } =
      EventFormatter.formatSummary envEmptyItems c4Event
        { showLocation := .undef, showAttendees := .undef, showStatus := .undef } ++
        statusContinuation c4Event ∧
    statusContinuation c4Event = "\n" ++ jsPadEnd "" 22 ++ " " ++ warnMark ++ "  undefined" ∧
    EventFormatter.formatSummary envEmptyItems c4Event
        { showLocation := .undef, showAttendees := .undef, showStatus := .bool true } ≠
      EventFormatter.formatSummary envEmptyItems c4Event
        { showLocation := .undef, showAttendees := .undef, showStatus := .undef } := by
  refine ⟨rfl, rfl, rfl, ?_⟩
  decide

/-- C4 (witness): the amended statement at a concrete event with no status
field and the status flag set. -/
theorem C4_status_line_witness :
    EventFormatter.formatSummary envEmptyItems c4Event
        { showLocation := .undef, showAttendees := .undef, showStatus := .bool true } =
      EventFormatter.formatSummary envEmptyItems c4Event
        { showLocation := .undef, showAttendees := .undef, showStatus := .undef } ++
        (if (Js.bool true).truthy &&
            jsStrictNeStr ((EventFormatter.format c4Event).get "status") "confirmed" then
          statusContinuation c4Event
        else "") :=
  C4_status_line_appended_iff envEmptyItems c4Event
    { showLocation := .undef, showAttendees := .undef, showStatus := .bool true }

/-! ## Lemmas about the or-default operator -/

theorem jsOr_self (d : Js) : jsOr d d = d := by
  unfold jsOr; split <;> rfl

theorem jsOr_jsOr (x d : Js) : jsOr (jsOr x d) d = jsOr x d := by
  by_cases h : x.truthy
  · simp [jsOr, h]
  · simp only [jsOr, h, if_false, Bool.false_eq_true]
    split <;> rfl

theorem get_of_nonObj (v : Js) (h : nonObj v = true) (k : String) : v.get k = .undef := by
  cases v <;> simp_all [nonObj, Js.get]

/-! ## Claim C3 -/

/-- C3 (amended): normalization is total (the model is a total function,
mirroring that `format` only uses optional chaining and defaulting), but it
is not idempotent: re-normalizing the NormalizedEvent it produced yields
the same record except that `start` and `end` become absent and `isAllDay`
becomes `true`, because the normalized `start`/`end` are plain strings with
no `dateTime`/`date` properties. The hypotheses say the normalized
`start`/`end` values are not objects, which holds for every well-formed
EventRecord (where `dateTime`/`date` are strings when present). -/
theorem C3_renormalize_strips_times (e : Js)
    (hs : nonObj ((EventFormatter.format e).get "start") = true)
    (he : nonObj ((EventFormatter.format e).get "end") = true) :
    EventFormatter.format (EventFormatter.format e) = stripTimes (EventFormatter.format e) := by
  have hsd : ∀ k, Js.get ((EventFormatter.format e).get "start") k = .undef :=
    get_of_nonObj _ hs
  have hed : ∀ k, Js.get ((EventFormatter.format e).get "end") k = .undef :=
    get_of_nonObj _ he
  have pstart : (EventFormatter.format e).get "start" =
    jsOr ((e.get "start").get "dateTime") ((e.get "start").get "date") := rfl
  have pend : (EventFormatter.format e).get "end" =
    jsOr ((e.get "end").get "dateTime") ((e.get "end").get "date") := rfl
  show Js.obj _ = _
  rw [show stripTimes (EventFormatter.format e) = Js.obj
    [("id", e.get "id"),
     ("summary", jsOr (e.get "summary") (.str "(No title)")),
     ("description", jsOr (e.get "description") (.str "")),
     ("location", jsOr (e.get "location") (.str "")),
     ("start", Js.undef),
     ("end", Js.undef),
     ("isAllDay", .bool true),
     ("status", e.get "status"),
     ("created", e.get "created"),
     ("updated", e.get "updated"),
     ("htmlLink", e.get "htmlLink"),
     ("attendees", jsOr (e.get "attendees") (.arr [])),
     ("attendeeCount", jsLengthVal (jsOr (e.get "attendees") (.arr []))),
     ("organizer", e.get "organizer"),
     ("recurrence", e.get "recurrence"),
     ("reminders", e.get "reminders")] from rfl]
  have pid : (EventFormatter.format e).get "id" = e.get "id" := rfl
  have psum : (EventFormatter.format e).get "summary" = jsOr (e.get "summary") (.str "(No title)") := rfl
  have pdesc : (EventFormatter.format e).get "description" = jsOr (e.get "description") (.str "") := rfl
  have ploc : (EventFormatter.format e).get "location" = jsOr (e.get "location") (.str "") := rfl
  have pstat : (EventFormatter.format e).get "status" = e.get "status" := rfl
  have pcre : (EventFormatter.format e).get "created" = e.get "created" := rfl
  have pupd : (EventFormatter.format e).get "updated" = e.get "updated" := rfl
  have phtml : (EventFormatter.format e).get "htmlLink" = e.get "htmlLink" := rfl
  have patt : (EventFormatter.format e).get "attendees" = jsOr (e.get "attendees") (.arr []) := rfl
  have porg : (EventFormatter.format e).get "organizer" = e.get "organizer" := rfl
  have prec : (EventFormatter.format e).get "recurrence" = e.get "recurrence" := rfl
  have prem : (EventFormatter.format e).get "reminders" = e.get "reminders" := rfl
  have hjo : jsOr Js.undef Js.undef = Js.undef := rfl
  have hal : Js.bool (!Js.undef.truthy) = Js.bool true := rfl
  simp only [pid, psum, pdesc, ploc, pstat, pcre, pupd, phtml, patt, porg, prec, prem,
    hsd, hed, jsOr_jsOr, hjo, hal]

/-- C3 (counterexample): re-normalizing the JSON shape of the normalized
form of a well-formed timed event does not reproduce it: the first pass has
`isAllDay = false`, the second has `isAllDay = true` (and `start`/`end`
lost), so `normalize` is not idempotent as the claim states. -/
theorem C3_counterexample_not_idempotent :
    (EventFormatter.format c3Event).get "isAllDay" = Js.bool false ∧
    (EventFormatter.format (jsonRound (EventFormatter.format c3Event))).get "isAllDay" =
      Js.bool true ∧
    EventFormatter.format (jsonRound (EventFormatter.format c3Event)) ≠
      EventFormatter.format c3Event := by
  refine ⟨rfl, rfl, fun h => ?_⟩
  have h2 : Js.bool true = Js.bool false := congrArg (fun v => Js.get v "isAllDay") h
  simp at h2

/-- C3 (witness): the amended statement at the concrete timed event. -/
theorem C3_renormalize_witness :
    EventFormatter.format (EventFormatter.format c3Event) =
      stripTimes (EventFormatter.format c3Event) :=
  C3_renormalize_strips_times c3Event rfl rfl

/-! ## Claim C6 -/

/-- C6: when the `search` command is dispatched with no positional query
(and `--help` is not set, which would print help instead), the process
exits 1 after the two usage lines, and the trace contains no network call
and no client construction: the positional check precedes
`new CalendarClient()`. -/
theorem C6_search_no_query (env : Env) (argv : List String)
    (hcmd : (parseArgs argv).command = some "search")
    (hpos : (parseArgs argv).positional = [])
    (hhelp : (objGet (parseArgs argv).options "help").truthy = false) :
    mainRun env argv =
      { events := [.err (crossMark ++ " Search query required"),
                   .err "Usage: node gcal.js search \"meeting\""],
        exit := .exited 1 } ∧
    fetchCount (mainRun env argv).events = 0 ∧
    constructCount (mainRun env argv).events = 0 := by
  have h : mainRun env argv =
      { events := [.err (crossMark ++ " Search query required"),
                   .err "Usage: node gcal.js search \"meeting\""],
        exit := .exited 1 } := by
    simp only [mainRun, hcmd, hpos, hhelp, searchEvents]
    simp [List.isEmpty, hpos]
  refine ⟨h, ?_, ?_⟩ <;> rw [h] <;> rfl

/-- C6 (witness): the statement at the bare invocation `search`. -/
theorem C6_search_no_query_witness :
    mainRun envEmptyItems ["search"] =
      { events := [.err (crossMark ++ " Search query required"),
                   .err "Usage: node gcal.js search \"meeting\""],
        exit := .exited 1 } :=
  (C6_search_no_query envEmptyItems ["search"] rfl rfl rfl).1

/-! ## Claim C2 -/

/-- C2 (counterexample): for `event abc --json` against a service answering
HTTP 404, the process exits 1 but no JSON error envelope reaches standard
error: the handler's own catch prints the plain-text line and exits before
the envelope code in `main` could run. The claim asserts an envelope with
status 404 is emitted. -/
theorem C2_counterexample_no_envelope :
    mainRun env404 ["event", "abc", "--json"] =
      { events := [.construct,
                   .fetch "https://www.googleapis.com/calendar/v3/calendars/primary/events/abc",
                   .err (crossMark ++ " Failed to get event: Not Found")],
        exit := .exited 1 } ∧
    errJsonFree (mainRun env404 ["event", "abc", "--json"]).events = true :=
  ⟨rfl, rfl⟩

/-- C2 (amended): when the `event` command fails remotely (any non-ok
response, 404 included), the process exits 1 and the failure is reported as
a single plain-text line on standard error; no JSON error envelope is
emitted even under `--json`, because `showEvent` catches the error and
calls `process.exit(1)` before the envelope branch in `main` can run. -/
theorem C2_event_remote_error_plain_exit1 (env : Env) (argv : List String)
    (hcmd : (parseArgs argv).command = some "event")
    (hpos : (parseArgs argv).positional ≠ [])
    (hhelp : (objGet (parseArgs argv).options "help").truthy = false)
    (hsys : env.tokenSystem = true)
    (htok : env.hasToken "google-calendar" = true)
    (hfail : (env.fetch (showEventUrl (parseArgs argv))).ok = false) :
    mainRun env argv =
      { events := [.construct, .fetch (showEventUrl (parseArgs argv)),
                   .err (crossMark ++ " Failed to get event: " ++
                     (CalendarClient.requestError (env.fetch (showEventUrl (parseArgs argv)))).message)],
        exit := .exited 1 } ∧
    errJsonFree (mainRun env argv).events = true ∧
    exitCodeOf (mainRun env argv) = 1 := by
  have h : mainRun env argv =
      { events := [.construct, .fetch (showEventUrl (parseArgs argv)),
                   .err (crossMark ++ " Failed to get event: " ++
                     (CalendarClient.requestError (env.fetch (showEventUrl (parseArgs argv)))).message)],
        exit := .exited 1 } := by
    have hpe : (parseArgs argv).positional.isEmpty = false := by
      obtain ⟨p0, ps, hp⟩ := List.exists_cons_of_ne_nil hpos
      rw [hp]; rfl
    simp only [showEventUrl] at hfail ⊢
    simp only [mainRun, hcmd, hhelp]
    simp only [Option.getD_some, Option.some.injEq]
    norm_num
    simp only [showEvent, hpe, CalendarClient.construct, hsys, htok, Bool.not_true,
      CalendarClient.getEvent, CalendarClient.request, hfail, Bool.not_false,
      Bool.false_eq_true, if_false, if_true]
    rw [if_neg (by simp)]
    simp [List.headD_eq_head?_getD]
  refine ⟨h, ?_, ?_⟩ <;> rw [h] <;> rfl

/-- C2 (witness): the amended statement at the 404 scenario with `--json`. -/
theorem C2_event_remote_error_witness :
    mainRun env404 ["event", "abc", "--json"] =
      { events := [.construct, .fetch (showEventUrl (parseArgs ["event", "abc", "--json"])),
                   .err (crossMark ++ " Failed to get event: " ++
                     (CalendarClient.requestError
                       (env404.fetch (showEventUrl (parseArgs ["event", "abc", "--json"])))).message)],
        exit := .exited 1 } :=
  (C2_event_remote_error_plain_exit1 env404 ["event", "abc", "--json"]
    rfl (by decide) rfl rfl rfl rfl).1

/-! ## Claim C1 -/

/-- C1: evaluation of the `list` command at the failing input
`list primary` (the usage the help text and README document as selecting a
calendar). `showUpcoming` consumes the positional as the day count, so
`parseInt('primary')` is `NaN`, the 365-day window forced by `main` is
overridden, `new Date(now + NaN).toISOString()` throws, and the run exits 1
having issued no fetch and never using the positional as the calendar.
Without a positional, `list` does behave as `upcoming` over a 365-day
window (second conjunct: the window is now to now plus 365 days, here
rendered over the frozen test clock). -/
theorem C1_list_positional_is_day_count :
    mainRun envEmptyItems ["list", "primary"] =
      { events := [.construct,
                   .err (crossMark ++ " Failed to get upcoming events: Invalid time value")],
        exit := .exited 1 } ∧
    fetchCount (mainRun envEmptyItems ["list", "primary"]).events = 0 ∧
    (mainRun envEmptyItems ["list"]).events =
      [.construct,
       .fetch "https://www.googleapis.com/calendar/v3/calendars/primary/events?timeMin=0&timeMax=31536000000&maxResults=100&singleEvents=true&orderBy=startTime&showDeleted=false",
       .out (calMark ++ " Upcoming events (next 365 days):\n"),
       .out (calMark ++ " No upcoming events in the next 365 days")] :=
  ⟨rfl, rfl, rfl⟩

/-! ## Claim C7: trace-counting lemmas -/

theorem clockLineCount_append (a b : List Ev) :
    clockLineCount (a ++ b) = clockLineCount a + clockLineCount b := by
  induction a with
  | nil => simp [clockLineCount]
  | cons e t ih =>
    cases e <;> simp [clockLineCount, ih] <;> omega

theorem outCount_append (s : String) (a b : List Ev) :
    outCount s (a ++ b) = outCount s a + outCount s b := by
  induction a with
  | nil => simp [outCount]
  | cons e t ih =>
    cases e <;> simp [outCount, ih] <;> omega

theorem isPrefixOf_cons_ne (c1 c2 : Char) (l1 l2 : List Char) (h : c1 ≠ c2) :
    List.isPrefixOf (c1 :: l1) (c2 :: l2) = false := by
  simp [List.isPrefixOf, h]

theorem str_ne_of_head_ne (a b : String) (h : a.toList.head? ≠ b.toList.head?) : a ≠ b :=
  fun hab => h (by rw [hab])

-- Line classification: nothing but the clock lines starts with the clock prefix.
theorem sep_not_clock (d : String) :
    jsStartsWith ("--- " ++ d ++ " ---") (clockMark ++ " ") = false := by
  show List.isPrefixOf (clockMark ++ " ").toList ("--- " ++ d ++ " ---").toList = false
  have h1 : (clockMark ++ " ").toList =
      Char.ofNat 8218 :: Char.ofNat 232 :: Char.ofNat 8734 :: [' '] := by decide
  have h2 : ("--- " ++ d ++ " ---").toList =
      '-' :: ('-' :: '-' :: ' ' :: (d.toList ++ " ---".toList)) := by
    simp [String.toList]
  rw [h1, h2]
  exact isPrefixOf_cons_ne _ _ _ _ (by decide)

theorem clock_is_clock (s : String) :
    jsStartsWith (clockMark ++ " " ++ s ++ "\n") (clockMark ++ " ") = true := by
  show List.isPrefixOf (clockMark ++ " ").toList (clockMark ++ " " ++ s ++ "\n").toList = true
  have h2 : (clockMark ++ " " ++ s ++ "\n").toList =
      (clockMark ++ " ").toList ++ (s.toList ++ "\n".toList) := by
    simp [String.toList]
  rw [h2, List.isPrefixOf_iff_prefix]
  exact List.prefix_append _ _

theorem beq_false_of_head_ne (a b : String) (h : a.toList.head? ≠ b.toList.head?) :
    (a == b) = false :=
  beq_eq_false_iff_ne.mpr (str_ne_of_head_ne a b h)

theorem notice_head (n : Int) : (moreEventsNotice n).toList.head? = some '.' := by
  simp [String.toList, moreEventsNotice]

theorem sep_ne_notice (d : String) (n : Int) :
    (("--- " ++ d ++ " ---") == moreEventsNotice n) = false := by
  have h1 : ("--- " ++ d ++ " ---").toList.head? = some '-' := by
    simp [String.toList]
  exact beq_false_of_head_ne _ _ (by rw [h1, notice_head]; decide)

theorem clock_ne_notice (s : String) (n : Int) :
    ((clockMark ++ " " ++ s ++ "\n") == moreEventsNotice n) = false := by
  have h1 : (clockMark ++ " " ++ s ++ "\n").toList.head? = some (Char.ofNat 8218) := by
    simp [String.toList, clockMark]
  exact beq_false_of_head_ne _ _ (by rw [h1, notice_head]; decide)

theorem upcomingLoop_clockCount (env : Env) (args : Parsed) (maxD : Nat) :
    ∀ (items : List Js) (cur : String) (count : Nat),
      clockLineCount (upcomingLoop env args maxD items cur count) =
        min items.length (maxD - count) := by
  intro items
  induction items with
  | nil => intro cur count; simp [upcomingLoop, clockLineCount]
  | cons e rest ih =>
    intro cur count
    by_cases h : maxD ≤ count
    · rw [upcomingLoop, if_pos h]
      simp [clockLineCount]
      omega
    · rw [upcomingLoop, if_neg h]
      rw [clockLineCount_append, clockLineCount_append, ih]
      have hclock : clockLineCount [Ev.out (clockMark ++ " " ++
          EventFormatter.formatSummary env e (handlerFormatOpts args) ++ "\n")] = 1 := by
        simp [clockLineCount, clock_is_clock]
      rw [hclock]
      have hsep : clockLineCount (if formatDate env (jsOr ((e.get "start").get "dateTime")
          ((e.get "start").get "date")) != cur then
            [Ev.out ("--- " ++ formatDate env (jsOr ((e.get "start").get "dateTime")
              ((e.get "start").get "date")) ++ " ---")] else []) = 0 := by
        split
        · simp [clockLineCount, sep_not_clock]
        · simp [clockLineCount]
      rw [hsep]
      simp only [List.length_cons]
      omega

theorem upcomingLoop_noticeCount (env : Env) (args : Parsed) (maxD : Nat) (n : Int) :
    ∀ (items : List Js) (cur : String) (count : Nat),
      outCount (moreEventsNotice n) (upcomingLoop env args maxD items cur count) = 0 := by
  intro items
  induction items with
  | nil => intro cur count; simp [upcomingLoop, outCount]
  | cons e rest ih =>
    intro cur count
    by_cases h : maxD ≤ count
    · rw [upcomingLoop, if_pos h]
      simp [outCount]
    · rw [upcomingLoop, if_neg h]
      rw [outCount_append, outCount_append, ih]
      have hclock : outCount (moreEventsNotice n) [Ev.out (clockMark ++ " " ++
          EventFormatter.formatSummary env e (handlerFormatOpts args) ++ "\n")] = 0 := by
        simp [outCount, clock_ne_notice]
      rw [hclock]
      have hsep : outCount (moreEventsNotice n)
          (if formatDate env (jsOr ((e.get "start").get "dateTime")
            ((e.get "start").get "date")) != cur then
            [Ev.out ("--- " ++ formatDate env (jsOr ((e.get "start").get "dateTime")
              ((e.get "start").get "date")) ++ " ---")] else []) = 0 := by
        split
        · simp [outCount, sep_ne_notice]
        · simp [outCount]
      rw [hsep]

theorem not_clock_of_head (s : String) (h : s.toList.head? ≠ some (Char.ofNat 8218)) :
    jsStartsWith s (clockMark ++ " ") = false := by
  show List.isPrefixOf (clockMark ++ " ").toList s.toList = false
  have h1 : (clockMark ++ " ").toList =
      Char.ofNat 8218 :: Char.ofNat 232 :: Char.ofNat 8734 :: [' '] := by decide
  rw [h1]
  cases hs : s.toList with
  | nil => rfl
  | cons c rest =>
    apply isPrefixOf_cons_ne
    intro hc
    subst hc
    exact h (by simpa using congrArg List.head? hs)

theorem ne_notice_of_head (a : String) (n : Int) (c : Char) (hc : a.toList.head? = some c)
    (hne : c ≠ Char.ofNat 46) : (a == moreEventsNotice n) = false :=
  beq_false_of_head_ne _ _ (by rw [hc, notice_head]; simp [hne])

theorem noticeLike_not_clock (t : String) :
    jsStartsWith ("... and " ++ t ++ " more events") (clockMark ++ " ") = false :=
  not_clock_of_head _ (by simp [String.toList])

theorem ne_noticeLike_of_head (a t : String) (c : Char) (hc : a.toList.head? = some c)
    (hne : c ≠ Char.ofNat 46) : a ≠ ("... and " ++ t ++ " more events") :=
  str_ne_of_head_ne _ _ (by
    rw [hc, show ("... and " ++ t ++ " more events").toList.head? = some (Char.ofNat 46) by
      simp [String.toList]]
    simp [hne])

set_option maxHeartbeats 1000000 in
/-- The display behaviour of `showUpcoming` against a service returning a
fixed event list: the number of displayed (clock-prefixed) lines is the
fetched length capped at the display limit, the `more events` notice is
absent, and the handler returns normally. Stated before the dispatch-level
claim theorem so the latter can reuse it. -/
theorem showUpcoming_display (env : Env) (args : Parsed) (items : List Js) (d : Int)
    (hsys : env.tokenSystem = true) (htok : env.hasToken "google-calendar" = true)
    (hfetch : ∀ u, env.fetch u = ⟨true, 200, "OK", .obj [("items", .arr items)]⟩)
    (hjson : (objGet args.options "json").truthy = false)
    (hdays : showUpcomingDays args = some d) :
    clockLineCount (showUpcoming env args).events =
      min items.length (if (objGet args.options "summary").truthy then 10 else 50) ∧
    outCount (moreEventsNotice ((items.length : Int) -
        ((if (objGet args.options "summary").truthy then 10 else 50 : Nat) : Int)))
      (showUpcoming env args).events =
      (if (if (objGet args.options "summary").truthy then 10 else 50 : Nat) < items.length
        then 1 else 0) ∧
    (showUpcoming env args).exit = ExitKind.normal := by
  have hc : CalendarClient.construct env = ([Ev.construct], .ok ()) := by
    simp [CalendarClient.construct, hsys, htok]
  have hreq : ∀ ep, CalendarClient.request env ep =
      ([Ev.fetch (CalendarClient.baseUrl ++ ep)], .ok (Js.obj [("items", Js.arr items)])) := by
    intro ep
    simp [CalendarClient.request, hfetch]
  have hup : ∃ u, CalendarClient.getUpcomingEvents env (some d) (handlerCalendarId args)
      [("maxResults", maxResultsOpt args 100)] =
      ([Ev.fetch u], Except.ok (Js.obj [("items", Js.arr items)])) := ⟨_, hreq _⟩
  obtain ⟨u, hup⟩ := hup
  have hitems : (Js.obj [("items", Js.arr items)]).get "items" = Js.arr items := rfl
  have hhead : jsStartsWith (calMark ++ " Upcoming events (next " ++ daysDisplay (some d) ++
      " days):\n") (clockMark ++ " ") = false :=
    not_clock_of_head _ (by simp [String.toList, calMark])
  have hnoev : jsStartsWith (calMark ++ " No upcoming events in the next " ++
      daysDisplay (some d) ++ " days") (clockMark ++ " ") = false :=
    not_clock_of_head _ (by simp [String.toList, calMark])
  simp only [showUpcoming, hc, hdays, hup, hjson, Bool.false_eq_true, if_false, hitems]
  cases items with
  | nil =>
    refine ⟨?_, ?_, trivial⟩
    · simp [clockLineCount_append, clockLineCount, hhead, hnoev]
    · simp [outCount_append, outCount,
        ne_notice_of_head _ _ _ (show (calMark ++ " Upcoming events (next " ++
          daysDisplay (some d) ++ " days):\n").toList.head? = some (Char.ofNat 63743) by
            simp [String.toList, calMark]) (by decide),
        ne_notice_of_head _ _ _ (show (calMark ++ " No upcoming events in the next " ++
          daysDisplay (some d) ++ " days").toList.head? = some (Char.ofNat 63743) by
            simp [String.toList, calMark]) (by decide)]
  | cons e0 es =>
    have hloopc := upcomingLoop_clockCount env args
      (if (objGet args.options "summary").truthy = true then 10 else 50) (e0 :: es) "" 0
    have hloopn := upcomingLoop_noticeCount env args
      (if (objGet args.options "summary").truthy = true then 10 else 50)
      (((e0 :: es).length : Int) -
        ((if (objGet args.options "summary").truthy = true then 10 else 50 : Nat) : Int))
      (e0 :: es) "" 0
    have hbulb : jsStartsWith (bulbMark ++
        " Use --max to increase limit or remove --summary for more details")
        (clockMark ++ " ") = false :=
      not_clock_of_head _ (by simp [String.toList, bulbMark])
    have hne1 : ∀ t, (calMark ++ " Upcoming events (next " ++ daysDisplay (some d) ++
        " days):\n") ≠ ("... and " ++ t ++ " more events") := fun t =>
      ne_noticeLike_of_head _ t (Char.ofNat 63743) (by simp [String.toList, calMark]) (by decide)
    have hne2 : ∀ t, (bulbMark ++
        " Use --max to increase limit or remove --summary for more details") ≠
        ("... and " ++ t ++ " more events") := fun t =>
      ne_noticeLike_of_head _ t (Char.ofNat 63743) (by simp [String.toList, bulbMark]) (by decide)
    by_cases hlen : (if (objGet args.options "summary").truthy = true then 10 else 50 : Nat) <
        (e0 :: es).length
    · refine ⟨?_, ?_, trivial⟩
      · simp only [if_pos hlen, clockLineCount_append, hloopc, Nat.sub_zero]
        simp [clockLineCount, hhead, hbulb, noticeLike_not_clock]
      · simp only [if_pos hlen, outCount_append, hloopn]
        simp [outCount, hne1, hne2, moreEventsNotice]
    · refine ⟨?_, ?_, trivial⟩
      · simp only [if_neg hlen, clockLineCount_append, hloopc, Nat.sub_zero]
        simp [clockLineCount, hhead]
      · simp only [if_neg hlen, outCount_append, hloopn]
        simp [outCount, hne1, hlen, moreEventsNotice]


/-- C7: the `upcoming` display truncation. For any fetched event list, the
run displays at most 10 events under `--summary` and at most 50 otherwise
(exactly `min length limit` clock-prefixed lines), independent of the
`--max` fetch option (an arbitrary non-flag `--max` argument is threaded
through), and prints the `... and N more events` notice exactly when the
fetched list exceeds the display limit, with N the exact number of
undisplayed events. -/
theorem C7_upcoming_display_truncation (env : Env) (items : List Js) (summaryFlag : Bool) (maxArg : String)
    (hsys : env.tokenSystem = true) (htok : env.hasToken "google-calendar" = true)
    (hfetch : ∀ u, env.fetch u = ⟨true, 200, "OK", .obj [("items", .arr items)]⟩)
    (hmax : jsStartsWith maxArg "-" = false) :
    clockLineCount (mainRun env (["upcoming", "14"] ++
        (if summaryFlag then ["--summary"] else []) ++ ["--max", maxArg])).events =
      min items.length (if summaryFlag then 10 else 50) ∧
    outCount (moreEventsNotice ((items.length : Int) -
        ((if summaryFlag then (10 : Nat) else 50) : Int)))
      (mainRun env (["upcoming", "14"] ++
        (if summaryFlag then ["--summary"] else []) ++ ["--max", maxArg])).events =
      (if (if summaryFlag then (10 : Nat) else 50) < items.length then 1 else 0) := by
  cases summaryFlag with
  | true =>
    have hparse : parseArgs ["upcoming", "14", "--summary", "--max", maxArg] =
        { command := some "upcoming", positional := ["14"],
          options := [("summary", Js.bool true), ("max", Js.str maxArg)] } := by
      have h0 : parseArgs ["upcoming", "14", "--summary", "--max", maxArg] =
          (if (!jsStartsWith maxArg "-") = true then
            ({ command := some "upcoming", positional := ["14"],
               options := [("summary", Js.bool true), ("max", Js.str maxArg)] } : Parsed)
           else parseArgsAux [maxArg]
            { command := some "upcoming", positional := ["14"],
              options := [("summary", Js.bool true), ("max", Js.bool true)] }) := rfl
      rw [h0, hmax]
      rfl
    have hd := showUpcoming_display env
      { command := some "upcoming", positional := ["14"],
        options := [("summary", Js.bool true), ("max", Js.str maxArg)] } items 14
      hsys htok hfetch rfl rfl
    have hmain : mainRun env ["upcoming", "14", "--summary", "--max", maxArg] =
        showUpcoming env
          { command := some "upcoming", positional := ["14"],
            options := [("summary", Js.bool true), ("max", Js.str maxArg)] } := by
      simp only [mainRun, hparse]
      show (match (showUpcoming env
          { command := some "upcoming", positional := ["14"],
            options := [("summary", Js.bool true), ("max", Js.str maxArg)] }).exit with
        | ExitKind.threw e => mainCatch
            { command := some "upcoming", positional := ["14"],
              options := [("summary", Js.bool true), ("max", Js.str maxArg)] } env.debugEnv
            (showUpcoming env
              { command := some "upcoming", positional := ["14"],
                options := [("summary", Js.bool true), ("max", Js.str maxArg)] }).events e
        | _ => showUpcoming env
            { command := some "upcoming", positional := ["14"],
              options := [("summary", Js.bool true), ("max", Js.str maxArg)] }) = _
      rw [hd.2.2]
    constructor
    · show clockLineCount (mainRun env ["upcoming", "14", "--summary", "--max", maxArg]).events = _
      rw [hmain]
      simpa using hd.1
    · show outCount _ (mainRun env ["upcoming", "14", "--summary", "--max", maxArg]).events = _
      rw [hmain]
      simpa using hd.2.1
  | false =>
    have hparse : parseArgs ["upcoming", "14", "--max", maxArg] =
        { command := some "upcoming", positional := ["14"],
          options := [("max", Js.str maxArg)] } := by
      have h0 : parseArgs ["upcoming", "14", "--max", maxArg] =
          (if (!jsStartsWith maxArg "-") = true then
            ({ command := some "upcoming", positional := ["14"],
               options := [("max", Js.str maxArg)] } : Parsed)
           else parseArgsAux [maxArg]
            { command := some "upcoming", positional := ["14"],
              options := [("max", Js.bool true)] }) := rfl
      rw [h0, hmax]
      rfl
    have hd := showUpcoming_display env
      { command := some "upcoming", positional := ["14"],
        options := [("max", Js.str maxArg)] } items 14
      hsys htok hfetch rfl rfl
    have hmain : mainRun env ["upcoming", "14", "--max", maxArg] =
        showUpcoming env
          { command := some "upcoming", positional := ["14"],
            options := [("max", Js.str maxArg)] } := by
      simp only [mainRun, hparse]
      show (match (showUpcoming env
          { command := some "upcoming", positional := ["14"],
            options := [("max", Js.str maxArg)] }).exit with
        | ExitKind.threw e => mainCatch
            { command := some "upcoming", positional := ["14"],
              options := [("max", Js.str maxArg)] } env.debugEnv
            (showUpcoming env
              { command := some "upcoming", positional := ["14"],
                options := [("max", Js.str maxArg)] }).events e
        | _ => showUpcoming env
            { command := some "upcoming", positional := ["14"],
              options := [("max", Js.str maxArg)] }) = _
      rw [hd.2.2]
    constructor
    · show clockLineCount (mainRun env ["upcoming", "14", "--max", maxArg]).events = _
      rw [hmain]
      simpa using hd.1
    · show outCount _ (mainRun env ["upcoming", "14", "--max", maxArg]).events = _
      rw [hmain]
      simpa using hd.2.1

/-- C7 (witness): 23 fetched events under `upcoming 14 --summary --max 100`
display exactly 10 clock lines and produce exactly one `... and 13 more
events` notice. -/
theorem C7_upcoming_display_witness :
    clockLineCount (mainRun (envItems (List.replicate 23 (Js.obj [])))
      ["upcoming", "14", "--summary", "--max", "100"]).events = 10 ∧
    outCount (moreEventsNotice 13) (mainRun (envItems (List.replicate 23 (Js.obj [])))
      ["upcoming", "14", "--summary", "--max", "100"]).events = 1 := by
  have h := C7_upcoming_display_truncation (envItems (List.replicate 23 (Js.obj [])))
    (List.replicate 23 (Js.obj [])) true "100" rfl rfl (fun u => rfl) (by decide)
  constructor
  · simpa using h.1
  · simpa using h.2
